import Mathlib

/-!
Shallow embedding of the render-path computation and validity-tracking engine of
`tk-nuke-writenode` (`src/python/tk_nuke_writenode/handler.py`,
class `TankWriteNodeHandler`).

Modelling conventions:
* Machine/host collaborators that the spec declares out of scope (the Nuke node
  graph, the templating engine, the context object) are modelled as opaque data
  carried in the state: templates are records of functions, node dimensions and
  the current script path are environment fields, knobs are per-node record
  fields.
* Python exceptions become `Except`: `TkComputePathError` is `CErr.compute`,
  any other `TankError` that the handler does not catch is `CErr.tank` and is
  threaded through every function it can escape from.
* Stateful methods become functions `HState → ... → result × HState`.
* `str.replace(single_char, "/")` is modelled as a character map, and
  `"sep".join` / `str.split(" ")` as structurally recursive list functions, so
  that every definition evaluates by kernel reduction.
* Pure UI display code that the spec rules out of scope (the path-preview
  labels written by `__update_path_preview` and the base64 knob-serialisation
  blob in `__on_script_save`) is not modelled; everything else that
  `__update_render_path` and its callees touch is.
-/

/-- A template field value: either a string or an integer
(dates, width and height are integers; everything else is a string). -/
inductive FVal where
  | str (s : String)
  | int (n : Int)
deriving DecidableEq, Repr

/-- A Python dict of template fields, with insertion order. -/
abbrev Fields := List (String × FVal)

/-- `fields.get(k)` / `k in fields`. -/
def fieldsGet (f : Fields) (k : String) : Option FVal :=
  (f.find? (fun kv => kv.1 = k)).map (fun kv => kv.2)

/-- `del fields[k]` (a no-op when the key is absent, which is how the
handler uses it: it always guards or simply deletes). -/
def fieldsDel (f : Fields) (k : String) : Fields :=
  f.filter (fun kv => kv.1 ≠ k)

/-- `fields[k] = v`: replace in place if present, else append. -/
def fieldsSet (f : Fields) (k : String) (v : FVal) : Fields :=
  if (f.find? (fun kv => kv.1 = k)).isSome then
    f.map (fun kv => if kv.1 = k then (k, v) else kv)
  else
    f ++ [(k, v)]

/-- `fields.update(g)`. -/
def fieldsUpdate (f g : Fields) : Fields :=
  g.foldl (fun acc kv => fieldsSet acc kv.1 kv.2) f

/-- One key of a path template, as the handler sees it:
`render_template.keys[key_name].validate(value)`. -/
structure TemplateKey where
  validate : String → Bool

/-- A path template, the external templating collaborator: named keys, an
optionality test, field application/extraction and path validation.
`applyFields`/`getFields` return `Except String _`, the error being the
`TankError` message. -/
structure Template where
  keys : List (String × TemplateKey)
  isOptional : String → Bool
  applyFields : Fields → Except String String
  getFields : String → Except String Fields
  validatePath : String → Bool

/-- `key_name in template.keys`. -/
def keyFind (t : Template) (key_name : String) : Option TemplateKey :=
  (t.keys.find? (fun kv => kv.1 = key_name)).map (fun kv => kv.2)

/-- A profile definition from the `write_nodes` app setting: a dict mapping
template-setting names (`"render_template"`, `"proxy_render_template"`, ...)
to template names, `""` when the profile does not define that template. -/
structure ProfileSettings where
  setting : String → String

/-- The app context (`self._app.context`): an identity used for cache-entry
comparison and the `as_template_fields` collaborator call. -/
structure Ctx where
  id : Nat
  asTemplateFields : Template → Fields

/-- One entry of `__node_computed_path_settings_cache`:
`{"ctx": .., "width": .., "height": .., "output": .., "script_path": ..}`.
Context equality is modelled through the context identity. -/
structure CacheEntry where
  ctxId : Nat
  width : Nat
  height : Nat
  output : String
  scriptPath : Option String
deriving DecidableEq, Repr

/-- The knob values persisted on one Shotgun Write node, plus the node
geometry-independent flags the handler reads and writes.  `tmplName` holds the
per-template-setting cached template-name knobs (`"render_template"` etc.).
`proxyMode` is `node.proxy()`. -/
structure Knobs where
  cached_path : String
  tk_cached_proxy_path : String
  tk_last_known_script : String
  profile_name : String
  write_type : String
  tank_channel : String
  tmplName : String → String
  path_warning : String
  path_warning_visible : Bool
  reset_path_visible : Bool
  tk_render_mode_visible : Bool
  tk_render_warning : String
  tk_render_warning_visible : Bool
  output_knob_visible : Bool
  name_as_output_visible : Bool
  proxyMode : Bool

/-- Node identity (`node` objects are compared and hashed by identity). -/
abbrev Node := Nat

/-- The whole handler + host state:
profile table, template registry, script template, context, current script
path (`__get_current_script_path()`, already os-separator normalised, `none`
when never saved), `os.path.sep` (one character on every supported platform),
today's date as (year, month, day), per-node knobs and dimensions, the node
list, `__currently_rendering_nodes`, `__node_computed_path_settings_cache`,
and the two re-entrancy guard flags. -/
structure HState where
  profiles : List (String × ProfileSettings)
  templatesByName : String → Option Template
  scriptTemplate : Option Template
  ctx : Ctx
  scriptPath : Option String
  osSep : Char
  today : Nat × Nat × Nat
  knobs : Node → Knobs
  dims : Node → Nat × Nat
  proxyDims : Node → Nat × Nat
  nodes : List Node
  currentlyRendering : List Node
  settingsCache : List ((Node × Bool) × (Option CacheEntry × String × String))
  isUpdatingRenderPath : Bool
  isUpdatingProxyPath : Bool

/-- Error channel: `compute` is `TkComputePathError`, `tank` is any other
`TankError` escaping uncaught. -/
inductive CErr where
  | compute (msg : String)
  | tank (msg : String)
deriving DecidableEq, Repr

/-- Replace every occurrence of the (single-character) separator by `/`:
`path.replace(os.path.sep, "/")`. -/
def normalizeSeparators (sep : Char) (path : String) : String :=
  ⟨path.data.map (fun c => if c = sep then '/' else c)⟩

/-- Replace every `/` by the os separator: `path.replace("/", os.path.sep)`. -/
def toOsSeparators (sep : Char) (path : String) : String :=
  ⟨path.data.map (fun c => if c = '/' then sep else c)⟩

/-- `t.split(sep)` for a one-character separator, keeping empty parts,
as Python's `str.split(" ")` does. -/
def splitOnChar (sep : Char) : List Char → List (List Char)
  | [] => [[]]
  | c :: rest =>
    let r := splitOnChar sep rest
    if c = sep then [] :: r
    else
      match r with
      | h :: t => (c :: h) :: t
      | [] => [[c]]

/-- `sep.join(parts)`. -/
def joinWith (sep : String) : List String → String
  | [] => ""
  | [x] => x
  | x :: y :: rest => x ++ sep ++ joinWith sep (y :: rest)

/-- One step of `__wrap_text`'s loop over the space-separated parts. -/
def wrapStep (lineLength : Nat) (acc : List String × String) (part : String) :
    List String × String :=
  let (lines, this_line) := acc
  if part.length ≥ lineLength then
    ((if this_line ≠ "" then lines ++ [this_line] else lines) ++ [part], "")
  else
    let joined := if this_line ≠ "" then this_line ++ " " ++ part else part
    if joined.length ≥ lineLength then (lines ++ [joined], "")
    else (lines, joined)

/-- `__wrap_text(t, line_length)`: wrap text on words. -/
def wrapText (t : String) (lineLength : Nat) : List String :=
  let parts := (splitOnChar ' ' t.data).map (fun l => String.mk l)
  let (lines, this_line) := parts.foldl (wrapStep lineLength) ([], "")
  if this_line ≠ "" then lines ++ [this_line] else lines

/-- Overwrite one node's knob record. -/
def setKnobs (s : HState) (n : Node) (k : Knobs) : HState :=
  { s with knobs := fun m => if m = n then k else s.knobs m }

/-- `__update_knob_value(node, name, v)` for a cached template-name knob:
set only when different (the handler avoids needless cache invalidation). -/
def setTmplNameKnob (s : HState) (n : Node) (name v : String) : HState :=
  let k := s.knobs n
  if k.tmplName name = v then s
  else setKnobs s n { k with tmplName := fun m => if m = name then v else k.tmplName m }

/-- `__get_node_profile_settings(node)`: look up the node's `profile_name`
knob in the profile table (`None` when the name is empty or unknown). -/
def getNodeProfileSettings (s : HState) (n : Node) : Option ProfileSettings :=
  let pname := (s.knobs n).profile_name
  if pname = "" then none
  else (s.profiles.find? (fun kv => kv.1 = pname)).map (fun kv => kv.2)

/-- `__get_template(node, name)`: resolve the template for setting `name` from
the node's profile; when the profile no longer exists, fall back to the
template name cached on the node's own knob.  When the profile exists and
names a template, the cached knob is refreshed (a knob write!). -/
def getTemplate (s : HState) (n : Node) (name : String) : Option Template × HState :=
  match getNodeProfileSettings s n with
  | some settings =>
      let template_name := settings.setting name
      let s' := if template_name ≠ "" then setTmplNameKnob s n name template_name else s
      (s'.templatesByName template_name, s')
  | none =>
      let template_name := (s.knobs n).tmplName name
      (s.templatesByName template_name, s)

/-- `__get_render_template(node, write_type, is_proxy, fallback_to_render)`.
Faithful to the source, including its fall-through: when the resolved
template is `None` and `fallback_to_render` is true, every branch falls off
the end of the Python function and returns `None` (no actual fallback). -/
def getRenderTemplate (s : HState) (n : Node) (writeType : String)
    (isProxy fallbackToRender : Bool) : Option Template × HState :=
  if isProxy then
    let (t, s') := getTemplate s n "proxy_render_template"
    if t.isSome || !fallbackToRender then (t, s') else (none, s')
  else if writeType = "Element" then
    let (t, s') := getTemplate s n "element_render_template"
    if t.isSome || !fallbackToRender then (t, s') else (none, s')
  else if writeType = "Denoise" then
    let (t, s') := getTemplate s n "denoise_render_template"
    if t.isSome || !fallbackToRender then (t, s') else (none, s')
  else if writeType = "SmartVector" then
    let (t, s') := getTemplate s n "smartvector_render_template"
    if t.isSome || !fallbackToRender then (t, s') else (none, s')
  else if writeType = "STMap" then
    let (t, s') := getTemplate s n "stmap_render_template"
    if t.isSome || !fallbackToRender then (t, s') else (none, s')
  else if writeType = "Test" then
    let (t, s') := getTemplate s n "test_render_template"
    if t.isSome || !fallbackToRender then (t, s') else (none, s')
  else
    getTemplate s n "render_template"

/-- `"output" in render_template.keys or "channel" in render_template.keys`,
guarded by `if render_template:`. -/
def hasOutputKey : Option Template → Bool
  | some t => (keyFind t "output").isSome || (keyFind t "channel").isSome
  | none => false

/-- The `is_proxy=False` body of `__gather_render_settings(node, is_proxy)`:
full-resolution render template, `node.width()/height()` dimensions, and the
output name when the template uses one. -/
def gatherRenderSettingsFull (s : HState) (n : Node) :
    (Option Template × Nat × Nat × String) × HState :=
  let writeType := (s.knobs n).write_type
  match getRenderTemplate s n writeType false false with
  | (rt, s₁) =>
    let wh := s₁.dims n
    let out := if hasOutputKey rt then (s₁.knobs n).tank_channel else ""
    ((rt, wh.1, wh.2, out), s₁)

/-- `__gather_render_settings(node, is_proxy)`: the render template, the
dimensions and the output name used to compute a path.  With no proxy
template the proxy call falls back to the full-resolution settings
(full-resolution template and `node.width()/height()` dimensions); the
source's recursive call `__gather_render_settings(node, False)` is the
full-resolution helper above. -/
def gatherRenderSettings (s : HState) (n : Node) :
    Bool → (Option Template × Nat × Nat × String) × HState
  | true =>
    let writeType := (s.knobs n).write_type
    match getRenderTemplate s n writeType true false with
    | (none, s₁) => gatherRenderSettingsFull s₁ n
    | (some t, s₁) =>
      let wh := s₁.proxyDims n
      let out := if hasOutputKey (some t) then (s₁.knobs n).tank_channel else ""
      ((some t, wh.1, wh.2, out), s₁)
  | false => gatherRenderSettingsFull s n

/-- The work-file fields of `__compute_render_path_from`: extract fields from
the current script path with the work-file template when the path validates,
else the empty dict.  A `TankError` from `get_fields` is not caught there and
propagates (`CErr.tank`). -/
def scriptFields (s : HState) : Except CErr Fields :=
  match s.scriptPath, s.scriptTemplate with
  | some p, some st =>
      if p ≠ "" && st.validatePath p then
        match st.getFields p with
        | .ok f => .ok f
        | .error e => .error (.tank e)
      else .ok []
  | _, _ => .ok []

/-- One iteration of the `for key_name in ["output", "channel"]` validation
loop of `__compute_render_path_from`. -/
def applyOutputKeyRules (t : Template) (output_name : String) (fields : Fields)
    (key_name : String) : Except CErr Fields :=
  let fields := fieldsDel fields key_name
  match keyFind t key_name with
  | none => .ok fields
  | some key =>
    if output_name = "" then
      if !t.isOptional key_name then
        .error (.compute ("A valid output name is required by this profile for the '"
          ++ key_name ++ "' field!"))
      else .ok fields
    else
      if !key.validate output_name then
        .error (.compute ("The output name '" ++ output_name ++ "' contains illegal characters!"))
      else .ok (fieldsSet fields key_name (.str output_name))

/-- `__compute_render_path_from(node, render_template, width, height,
output_name)`: the pure path computer.  (The `write_type` knob read at its top
feeds only a vestigial `pass` branch and is dropped.) -/
def computeRenderPathFrom (s : HState) (rt : Option Template)
    (width height : Nat) (output_name : String) : Except CErr String :=
  match rt with
  | none => .error (.compute "Unable to determine the render template to use!")
  | some t =>
    match scriptFields s with
    | .error e => .error e
    | .ok f₀ =>
      if f₀ = [] then .error (.compute "The current script is not a Shotgun Work File!")
      else
        let f₁ := fieldsSet f₀ "SEQ" (.str "FORMAT: %d")
        let f₂ := fieldsSet f₁ "eye" (.str "%V")
        let f₃ := fieldsSet f₂ "width" (.int width)
        let f₄ := fieldsSet f₃ "height" (.int height)
        let f₅ := fieldsSet f₄ "YYYY" (.int s.today.1)
        let f₆ := fieldsSet f₅ "MM" (.int s.today.2.1)
        let f₇ := fieldsSet f₆ "DD" (.int s.today.2.2)
        match applyOutputKeyRules t output_name f₇ "output" with
        | .error e => .error e
        | .ok f₈ =>
          match applyOutputKeyRules t output_name f₈ "channel" with
          | .error e => .error e
          | .ok f₉ =>
            let fc := fieldsUpdate f₉ (s.ctx.asTemplateFields t)
            match t.applyFields fc with
            | .ok path => .ok (normalizeSeparators s.osSep path)
            | .error e => .error (.compute e)

/-- `__compute_render_path(node, is_proxy)`: gather the settings (which may
refresh a template-name knob) and run the pure path computer. -/
def computeRenderPath (s : HState) (n : Node) (isProxy : Bool) :
    Except CErr String × HState :=
  match gatherRenderSettings s n isProxy with
  | ((rt, w, h, out), s₁) => (computeRenderPathFrom s₁ rt w h out, s₁)

/-- Read the cached path knob without evaluating
(`node.knob("tk_cached_proxy_path"/"cached_path").toScript()`). -/
def readCachedPath (s : HState) (n : Node) (isProxy : Bool) : String :=
  if isProxy then (s.knobs n).tk_cached_proxy_path else (s.knobs n).cached_path

/-- `__get_render_path(node, is_proxy)`: the cached path, computed fresh when
never cached; a `TkComputePathError` from the computation is swallowed
(the path stays empty), any other error propagates. -/
def getRenderPath (s : HState) (n : Node) (isProxy : Bool) :
    Except String String × HState :=
  let path := readCachedPath s n isProxy
  if path = "" then
    match computeRenderPath s n isProxy with
    | (.ok p, s') => (.ok p, s')
    | (.error (.compute _), s') => (.ok "", s')
    | (.error (.tank m), s') => (.error m, s')
  else (.ok path, s)

/-- The fields exempt from lock comparison. -/
def volatileFields : List String := ["width", "height", "YYYY", "MM", "DD"]

/-- One iteration of `__is_render_path_locked`'s comparison loop: a new field
is a mismatch when it is absent from the previous fields, or differs on a
non-volatile key. -/
def fieldsMismatch (prev : Fields) (kv : String × FVal) : Bool :=
  match fieldsGet prev kv.1 with
  | none => true
  | some v => if kv.1 ∈ volatileFields then false else decide (v ≠ kv.2)

/-- The field-set comparison of `__is_render_path_locked`. -/
def lockCompare (prev newF : Fields) : Bool :=
  decide (newF.length ≠ prev.length) || newF.any (fieldsMismatch prev)

/-- `__is_render_path_locked(node, render_path, cached_path, is_proxy)`.
Unresolvable template → locked; empty cached path → not locked; failure to
extract fields from the cached path → locked; otherwise compare field sets
ignoring the volatile fields.  A `TankError` raised when extracting fields
from the freshly computed path is not caught and propagates. -/
def isRenderPathLocked (s : HState) (n : Node) (render_path cached_path : String)
    (isProxy : Bool) : Except String Bool × HState :=
  let writeType := (s.knobs n).write_type
  match getRenderTemplate s n writeType isProxy true with
  | (none, s₁) => (.ok true, s₁)
  | (some t, s₁) =>
    if cached_path = "" then (.ok false, s₁)
    else
      match t.getFields cached_path with
      | .error _ => (.ok true, s₁)
      | .ok prev =>
        match t.getFields render_path with
        | .error e => (.error e, s₁)
        | .ok newF => (.ok (lockCompare prev newF), s₁)

/-- `if is_proxy: flag = __is_updating_proxy_path else __is_updating_render_path`. -/
def getFlag (s : HState) (isProxy : Bool) : Bool :=
  if isProxy then s.isUpdatingProxyPath else s.isUpdatingRenderPath

/-- Set the per-mode update-in-progress flag. -/
def setFlag (s : HState) (isProxy v : Bool) : HState :=
  if isProxy then { s with isUpdatingProxyPath := v }
  else { s with isUpdatingRenderPath := v }

/-- `__node_computed_path_settings_cache.get((node, is_proxy), (None, "", ""))`. -/
def settingsCacheGet (s : HState) (n : Node) (isProxy : Bool) :
    Option CacheEntry × String × String :=
  (((s.settingsCache.find? (fun kv => kv.1 = (n, isProxy))).map (fun kv => kv.2)).getD
    (none, "", ""))

/-- `__node_computed_path_settings_cache[(node, is_proxy)] = v`. -/
def settingsCacheSet (s : HState) (n : Node) (isProxy : Bool)
    (v : Option CacheEntry × String × String) : HState :=
  { s with settingsCache :=
      ((n, isProxy), v) :: s.settingsCache.filter (fun kv => kv.1 ≠ (n, isProxy)) }

/-- `__update_knob_value` on the cached path knob of the given mode. -/
def updCachedPathKnob (s : HState) (n : Node) (isProxy : Bool) (v : String) : HState :=
  let k := s.knobs n
  if isProxy then
    if k.tk_cached_proxy_path = v then s
    else setKnobs s n { k with tk_cached_proxy_path := v }
  else
    if k.cached_path = v then s
    else setKnobs s n { k with cached_path := v }

/-- `__update_knob_value(node, "path_warning", v)`. -/
def updPathWarningKnob (s : HState) (n : Node) (v : String) : HState :=
  let k := s.knobs n
  if k.path_warning = v then s else setKnobs s n { k with path_warning := v }

/-- `__update_knob_value(node, "tk_render_warning", v)`. -/
def updRenderWarningKnob (s : HState) (n : Node) (v : String) : HState :=
  let k := s.knobs n
  if k.tk_render_warning = v then s else setKnobs s n { k with tk_render_warning := v }

/-- The warning text `__update_render_path` builds when the path computation
fails (`except TkComputePathError` branch), including the extra paragraph
shown when a previously cached path exists. -/
def computeErrWarning (e cached_path : String) : String :=
  joinWith "<br>" (wrapText ("The render path is currently frozen because Toolkit could not "
      ++ "determine a valid path!  This was due to the following problem:") 60) ++ "<br>"
  ++ "<br>"
  ++ ("&nbsp;&nbsp;&nbsp;" ++ joinWith " <br>&nbsp;&nbsp;&nbsp;" (wrapText e 57) ++ " <br>")
  ++ (if cached_path ≠ "" then
        "<br>" ++ joinWith "<br>" (wrapText ("You can still render to the frozen path but "
          ++ "you won't be able to publish this node!") 60)
      else "")

/-- The warning text built when the path is locked. -/
def lockedWarning : String :=
  joinWith "<br>" (wrapText ("The path does not match the current Shotgun Work Area.  You can "
      ++ "still render but you will not be able to publish this node.") 60) ++ "<br>"
  ++ "<br>"
  ++ joinWith "<br>" (wrapText ("The path will be automatically reset next time you version-up, "
      ++ "publish or click 'Reset Path'.") 60)

/-- `"<i style='color:orange'><b><br>Warning</b><br>%s</i><br>" % pw`. -/
def formatPathWarning (pw : String) : String :=
  "<i style='color:orange'><b><br>Warning</b><br>" ++ pw ++ "</i><br>"

/-- `__is_output_used(node)`: whether the render or the proxy render template
declares an output (or legacy channel) key. -/
def isOutputUsed (s : HState) (n : Node) : Bool × HState :=
  let writeType := (s.knobs n).write_type
  match getRenderTemplate s n writeType false false with
  | (rt, s₁) =>
    match getRenderTemplate s₁ n writeType true false with
    | (pt, s₂) => (hasOutputKey rt || hasOutputKey pt, s₂)

/-- `__update_output_knobs(node)`: output-knob visibility follows whether an
output key is used. -/
def updateOutputKnobs (s : HState) (n : Node) : HState :=
  match isOutputUsed s n with
  | (used, s₁) =>
    setKnobs s₁ n { s₁.knobs n with
      output_knob_visible := used, name_as_output_visible := used }

/-- The `render_warning` knobs: formatted and visible when the text is
non-empty, cleared and hidden otherwise. -/
def setRenderWarnKnobs (s : HState) (n : Node) (rw : String) : HState :=
  if rw ≠ "" then
    let s₁ := updRenderWarningKnob s n
      ("<i style='color:orange'><b>Warning</b> <br>" ++ joinWith "<br>" (wrapText rw 60)
        ++ "<i><br>")
    setKnobs s₁ n { s₁.knobs n with tk_render_warning_visible := true }
  else
    let s₁ := updRenderWarningKnob s n ""
    setKnobs s₁ n { s₁.knobs n with tk_render_warning_visible := false }

/-- The UI tail of `__update_render_path` (lines guarded by
`is_proxy == node.proxy()`): warning knobs, reset-button visibility, proxy
mode label, and the proxy-equals-full render warning (which reads the full
render path and may propagate a `TankError`).  The path-preview display
update is pure UI and is not modelled. -/
def updateUI (s : HState) (n : Node) (isProxy : Bool) (path_warning : String)
    (reset_visible : Bool) (render_path : String) : Except String Unit × HState :=
  if isProxy = (s.knobs n).proxyMode then
    let s₁ :=
      if path_warning ≠ "" then
        let sA := updPathWarningKnob s n (formatPathWarning path_warning)
        setKnobs sA n { sA.knobs n with path_warning_visible := true }
      else
        let sA := updPathWarningKnob s n ""
        setKnobs sA n { sA.knobs n with path_warning_visible := false }
    let s₂ := setKnobs s₁ n { s₁.knobs n with reset_path_visible := reset_visible }
    let s₃ := setKnobs s₂ n { s₂.knobs n with tk_render_mode_visible := isProxy }
    if isProxy then
      match getRenderPath s₃ n false with
      | (.error m, s₄) => (.error m, s₄)
      | (.ok full_render_path, s₄) =>
        let rw := if full_render_path = render_path then
            "The full & proxy resolution render paths are currently the same.  "
            ++ "Rendering in proxy mode will overwrite any previously rendered "
            ++ "full-res frames!"
          else ""
        let s₅ := setRenderWarnKnobs s₄ n rw
        (.ok (), updateOutputKnobs s₅ n)
    else
      let s₅ := setRenderWarnKnobs s₃ n ""
      (.ok (), updateOutputKnobs s₅ n)
  else (.ok (), s)

/-- `node.knob("tk_last_known_script").setValue(script_path)` (a direct set). -/
def setLastKnownScript (s : HState) (n : Node) (v : String) : HState :=
  setKnobs s n { s.knobs n with tk_last_known_script := v }

/-- The tail of `__update_render_path`'s success (`else:`) branch after the
lock state is known: compose the locked warning, retain or accept the path,
record `tk_last_known_script`, then run the UI tail. -/
def updateSuccessTail (s : HState) (n : Node) (force isProxy : Bool)
    (cached_path : String) (script_path : Option String) (locked : Bool)
    (render_path₀ : String) : Except CErr String × HState :=
  let path_warning := if locked then lockedWarning else ""
  let reset_visible := locked
  let render_path := if locked then cached_path else render_path₀
  let s₁ := if !locked || cached_path = "" then updCachedPathKnob s n isProxy render_path else s
  let s₂ := if force || (s₁.knobs n).tk_last_known_script = "" then
      setLastKnownScript s₁ n (script_path.getD "") else s₁
  match updateUI s₂ n isProxy path_warning reset_visible render_path with
  | (.error m, s₃) => (.error (.tank m), s₃)
  | (.ok _, s₃) => (.ok render_path, s₃)

/-- The body of `__update_render_path` (everything inside the `try` whose
`finally` clears the mode flag): render guard, re-entrancy guard, settings
cache memoisation, path computation, error fallback, lock test, knob and UI
updates. -/
def updateRenderPathCore (s : HState) (n : Node) (force isProxy : Bool) :
    Except CErr String × HState :=
  let cached_path := readCachedPath s n isProxy
  if n ∈ s.currentlyRendering then (.ok cached_path, s)
  else if getFlag s isProxy then (.ok cached_path, s)
  else
    let sF := setFlag s isProxy true
    let script_path := sF.scriptPath
    match gatherRenderSettings sF n isProxy with
    | ((rt, w, h, out), s₁) =>
      match settingsCacheGet s₁ n isProxy with
      | (old_entry, compute_err, memo_path) =>
        let entry : CacheEntry :=
          { ctxId := s₁.ctx.id, width := w, height := h, output := out,
            scriptPath := script_path }
        let tryResult : Except CErr String :=
          if !force && old_entry = some entry then
            if compute_err ≠ "" then .error (.compute compute_err) else .ok memo_path
          else computeRenderPathFrom s₁ rt w h out
        match tryResult with
        | .error (.tank m) => (.error (.tank m), s₁)
        | .error (.compute msg) =>
          -- `except TkComputePathError` branch: record the failure, fall back
          -- to the cached path, surface the warning.
          let s₂ := settingsCacheSet s₁ n isProxy (some entry, msg, "")
          let path_warning := computeErrWarning msg cached_path
          match updateUI s₂ n isProxy path_warning false cached_path with
          | (.error m, s₃) => (.error (.tank m), s₃)
          | (.ok _, s₃) => (.ok cached_path, s₃)
        | .ok render_path₀ =>
          let s₂ := settingsCacheSet s₁ n isProxy (some entry, "", render_path₀)
          if !force then
            match isRenderPathLocked s₂ n render_path₀ cached_path isProxy with
            | (.error m, s₃) => (.error (.tank m), s₃)
            | (.ok locked, s₃) =>
              updateSuccessTail s₃ n force isProxy cached_path script_path locked render_path₀
          else
            -- the source recomputes the path here (outside the try/except:
            -- even a `TkComputePathError` would escape uncaught)
            match computeRenderPathFrom s₂ rt w h out with
            | .error e => (.error e, s₂)
            | .ok render_path₁ =>
              updateSuccessTail s₂ n force isProxy cached_path script_path false render_path₁

/-- `__update_render_path(node, force_reset, is_proxy)`: the core body plus
the `finally` that clears the mode's in-progress flag on every exit path. -/
def updateRenderPath (s : HState) (n : Node) (force isProxy : Bool) :
    Except CErr String × HState :=
  match updateRenderPathCore s n force isProxy with
  | (r, s') => (r, setFlag s' isProxy false)

/-- `render_path_is_locked(node)` (public): compute the fresh path — any
failure at all means "locked" — then compare against the cached path. -/
def renderPathIsLocked (s : HState) (n : Node) : Except String Bool × HState :=
  match computeRenderPath s n false with
  | (.error _, s₁) => (.ok true, s₁)
  | (.ok render_path, s₁) =>
    match getRenderPath s₁ n false with
    | (.error m, s₂) => (.error m, s₂)
    | (.ok cached, s₂) => isRenderPathLocked s₂ n render_path cached false

/-- `compute_render_path(node)` (public). -/
def compute_render_path (s : HState) (n : Node) : Except CErr String × HState :=
  computeRenderPath s n false

/-- `compute_proxy_path(node)` (public). -/
def compute_proxy_path (s : HState) (n : Node) : Except CErr String × HState :=
  computeRenderPath s n true

/-- `reset_render_path(node)`: force-reset the current mode, then the other
one; an exception from the first call propagates before the second runs. -/
def resetRenderPath (s : HState) (n : Node) : Except CErr Unit × HState :=
  let isProxy := (s.knobs n).proxyMode
  match updateRenderPath s n true isProxy with
  | (.error e, s₁) => (.error e, s₁)
  | (.ok _, s₁) =>
    match updateRenderPath s₁ n true (!isProxy) with
    | (r, s₂) => (r.map (fun _ => ()), s₂)

/-- One node's step of `__on_script_save`: compare the (os-normalised)
`tk_last_known_script` knob with the saved path and force-reset on a
difference, swallowing any exception from the reset. -/
def scriptSaveStep (p : String) (sep : Char) (s : HState) (n : Node) : HState :=
  let last := (s.knobs n).tk_last_known_script
  let last := if last ≠ "" then toOsSeparators sep last else last
  if last ≠ p then (resetRenderPath s n).2 else s

/-- `__on_script_save()`: nothing to do when the script has never been saved;
otherwise walk every write node.  (The serialisation of non-default encoder
knobs to the `tk_write_node_settings` blob is a host-persistence workaround
outside the specified core and is not modelled.) -/
def onScriptSave (s : HState) : HState :=
  match s.scriptPath with
  | none => s
  | some p => if p = "" then s else s.nodes.foldl (scriptSaveStep p s.osSep) s

/-- The rendering-set insertion performed by `on_before_render_gizmo_callback`
(the folder creation and user callback execution are host side effects). -/
def onBeforeRenderGizmo (s : HState) (grp : Node) : HState :=
  { s with currentlyRendering :=
      if grp ∈ s.currentlyRendering then s.currentlyRendering
      else grp :: s.currentlyRendering }

/-- The rendering-set removal performed by `on_after_render_gizmo_callback`. -/
def onAfterRenderGizmo (s : HState) (grp : Node) : HState :=
  { s with currentlyRendering := s.currentlyRendering.filter (fun m => m ≠ grp) }

/-- A knob record with every field at its neutral value, the base point for
the concrete scenarios below. -/
def defKnobs : Knobs where
  cached_path := ""
  tk_cached_proxy_path := ""
  tk_last_known_script := ""
  profile_name := ""
  write_type := "Version"
  tank_channel := ""
  tmplName := fun _ => ""
  path_warning := ""
  path_warning_visible := false
  reset_path_visible := false
  tk_render_mode_visible := false
  tk_render_warning := ""
  tk_render_warning_visible := false
  output_knob_visible := false
  name_as_output_visible := false
  proxyMode := false

/-- A base handler state for the concrete scenarios below: no profiles, no
templates, unsaved script, Windows-style separator. -/
def baseState : HState where
  profiles := []
  templatesByName := fun _ => none
  scriptTemplate := none
  ctx := { id := 0, asTemplateFields := fun _ => [] }
  scriptPath := none
  osSep := '\\'
  today := (2026, 10, 12)
  knobs := fun _ => defKnobs
  dims := fun _ => (1920, 1080)
  proxyDims := fun _ => (960, 540)
  nodes := []
  currentlyRendering := []
  settingsCache := []
  isUpdatingRenderPath := false
  isUpdatingProxyPath := false


/-- A minimal template for the C10 scenario. -/
def tC10 : Template where
  keys := []
  isOptional := fun _ => false
  applyFields := fun _ => .error "na"
  getFields := fun _ => .error "na"
  validatePath := fun _ => false

/-- State for the C10 scenario: node 0 has no profile, so template resolution
falls back to the cached template-name knob, which names `tC10`. -/
def sC10 : HState :=
  { baseState with
    templatesByName := fun nm => if nm = "rt" then some tC10 else none,
    knobs := fun _ => { defKnobs with tmplName := fun _ => "rt" } }

/-- A template for the C2 scenario whose field extraction returns field sets
differing only in the volatile `width` and `YYYY` values. -/
def tC2 : Template where
  keys := []
  isOptional := fun _ => false
  applyFields := fun _ => .error "na"
  getFields := fun p =>
    if p = "/r/old_1920.exr" then
      .ok [("Shot", .str "sh01"), ("width", .int 1920), ("YYYY", .int 2025)]
    else if p = "/r/new_2048.exr" then
      .ok [("Shot", .str "sh01"), ("width", .int 2048), ("YYYY", .int 2026)]
    else .error "unrecognized"
  validatePath := fun _ => false

/-- State for the C2 scenario. -/
def sC2 : HState :=
  { baseState with
    templatesByName := fun nm => if nm = "rtC2" then some tC2 else none,
    knobs := fun _ => { defKnobs with tmplName := fun _ => "rtC2" } }


/-- A minimal template for the C6 scenario, reachable only through the
template name cached on the node's knob. -/
def tC6 : Template where
  keys := []
  isOptional := fun _ => false
  applyFields := fun _ => .error "na"
  getFields := fun _ => .error "na"
  validatePath := fun _ => false

/-- State for the C6 scenario: node 0 references the deleted profile "gone",
carries a non-empty cached path, and the script has never been saved. -/
def sC6 : HState :=
  { baseState with
    templatesByName := fun nm => if nm = "rtC6" then some tC6 else none,
    knobs := fun _ => { defKnobs with
      profile_name := "gone",
      cached_path := "/old/path.exr",
      tmplName := fun _ => "rtC6" } }

/-- State for the C5 scenario: node 0 is in the rendering set and has a
cached path. -/
def sC5 : HState :=
  { baseState with
    currentlyRendering := [0],
    knobs := fun _ => { defKnobs with
      cached_path := "CACHED_FULL", tk_cached_proxy_path := "CACHED_PROXY" } }

/-- The render template of the C4 scenario: no output key, it always applies
to the path "NEW_B" and extracts an empty field set. -/
def tC4 : Template where
  keys := []
  isOptional := fun _ => false
  applyFields := fun _ => .ok "NEW_B"
  getFields := fun _ => .ok []
  validatePath := fun _ => true

/-- The work-file template of the C4 scenario. -/
def stC4 : Template where
  keys := []
  isOptional := fun _ => false
  applyFields := fun _ => .error "na"
  getFields := fun _ => .ok [("Shot", .str "sh01")]
  validatePath := fun _ => true

/-- State for the C4 scenario: a full-resolution update is in progress
(`__is_updating_render_path` is set - by whichever node started it); node 1
has profile "p", cached path "OLD_B", and a fully functional environment in
which a fresh computation would yield "NEW_B". -/
def sC4 : HState :=
  { baseState with
    profiles := [("p", ⟨fun nm => if nm = "render_template" then "rtC4" else ""⟩)],
    templatesByName := fun nm => if nm = "rtC4" then some tC4 else none,
    scriptTemplate := some stC4,
    scriptPath := some "W",
    knobs := fun m =>
      if m = 1 then
        { defKnobs with
          profile_name := "p", cached_path := "OLD_B",
          tmplName := fun nm => if nm = "render_template" then "rtC4" else "" }
      else defKnobs,
    isUpdatingRenderPath := true }


/-- Decidable equality for `Except`, used to evaluate concrete scenarios. -/
instance instDecEqExcept {e a : Type} [DecidableEq e] [DecidableEq a] :
    DecidableEq (Except e a)
  | .error x, .error y =>
    if h : x = y then .isTrue (by rw [h]) else .isFalse (by simp [h])
  | .error _, .ok _ => .isFalse (by simp)
  | .ok _, .error _ => .isFalse (by simp)
  | .ok x, .ok y =>
    if h : x = y then .isTrue (by rw [h]) else .isFalse (by simp [h])


/-- A minimal full-resolution template for the C8 scenario. -/
def tC8 : Template where
  keys := []
  isOptional := fun _ => false
  applyFields := fun _ => .error "na"
  getFields := fun _ => .error "na"
  validatePath := fun _ => false

/-- State for the C8 scenario: node 0 has no proxy render template (its
template-name knob is empty for `proxy_render_template`), while the
full-resolution render template resolves to `tC8`. -/
def sC8 : HState :=
  { baseState with
    templatesByName := fun nm => if nm = "rtC8" then some tC8 else none,
    knobs := fun _ => { defKnobs with
      tmplName := fun nm => if nm = "render_template" then "rtC8" else "" } }


/-- The work-file template for the C3 scenario. -/
def stC3 : Template where
  keys := []
  isOptional := fun _ => false
  applyFields := fun _ => .error "na"
  getFields := fun _ => .ok [("Shot", .str "sh01")]
  validatePath := fun _ => true

/-- C3 scenario template with a non-optional "output" key that rejects
slashes. -/
def tC3req : Template where
  keys := [("output", ⟨fun v => !v.data.contains '/'⟩)]
  isOptional := fun _ => false
  applyFields := fun _ => .ok "OK_PATH"
  getFields := fun _ => .error "na"
  validatePath := fun _ => false

/-- C3 scenario template with an optional "output" key. -/
def tC3opt : Template where
  keys := [("output", ⟨fun v => !v.data.contains '/'⟩)]
  isOptional := fun _ => true
  applyFields := fun _ => .ok "OK_PATH"
  getFields := fun _ => .error "na"
  validatePath := fun _ => false

/-- State for the C3 scenario: a saved, recognised work file. -/
def sC3 : HState :=
  { baseState with
    scriptTemplate := some stC3,
    scriptPath := some "w.nk" }


/-- The template-setting name `__get_render_template` consults for a given
write type in full-resolution mode. -/
def fullTemplateSettingName (wt : String) : String :=
  if wt = "Element" then "element_render_template"
  else if wt = "Denoise" then "denoise_render_template"
  else if wt = "SmartVector" then "smartvector_render_template"
  else if wt = "STMap" then "stmap_render_template"
  else if wt = "Test" then "test_render_template"
  else "render_template"

/-- State for the C7 scenario: node 0's profile "p" names template "rtA"
while the node's cached template-name knob still holds the stale value
"stale". -/
def sC7 : HState :=
  { baseState with
    profiles := [("p", ⟨fun nm => if nm = "render_template" then "rtA" else ""⟩)],
    knobs := fun _ => { defKnobs with
      profile_name := "p", tmplName := fun _ => "stale" } }


/-- State for the C9 scenario: a single node whose last-known script path
differs from the just-saved script path "X". -/
def sC9 : HState :=
  { baseState with
    scriptPath := some "X",
    nodes := [0],
    knobs := fun _ => { defKnobs with tk_last_known_script := "OLDSCRIPT" } }

/-- State for the C9 scenario, saved-in-place variant: the last-known script
path equals the saved path. -/
def sC9b : HState :=
  { baseState with
    scriptPath := some "X",
    nodes := [0],
    knobs := fun _ => { defKnobs with tk_last_known_script := "X" } }

/-- Template resolution touches at most the cached template-name knobs: every
other state component, and every other knob field, is preserved.  This frame
predicate carries exactly the preserved projections used below. -/
structure TmplPres (s s' : HState) : Prop where
  profiles_eq : s'.profiles = s.profiles
  templatesByName_eq : s'.templatesByName = s.templatesByName
  scriptTemplate_eq : s'.scriptTemplate = s.scriptTemplate
  ctx_eq : s'.ctx = s.ctx
  scriptPath_eq : s'.scriptPath = s.scriptPath
  osSep_eq : s'.osSep = s.osSep
  today_eq : s'.today = s.today
  dims_eq : s'.dims = s.dims
  proxyDims_eq : s'.proxyDims = s.proxyDims
  nodes_eq : s'.nodes = s.nodes
  currentlyRendering_eq : s'.currentlyRendering = s.currentlyRendering
  settingsCache_eq : s'.settingsCache = s.settingsCache
  isUpdatingRenderPath_eq : s'.isUpdatingRenderPath = s.isUpdatingRenderPath
  isUpdatingProxyPath_eq : s'.isUpdatingProxyPath = s.isUpdatingProxyPath
  cached_path_eq : ∀ m, (s'.knobs m).cached_path = (s.knobs m).cached_path
  tk_cached_proxy_path_eq : ∀ m, (s'.knobs m).tk_cached_proxy_path = (s.knobs m).tk_cached_proxy_path
  tk_last_known_script_eq : ∀ m, (s'.knobs m).tk_last_known_script = (s.knobs m).tk_last_known_script
  profile_name_eq : ∀ m, (s'.knobs m).profile_name = (s.knobs m).profile_name
  write_type_eq : ∀ m, (s'.knobs m).write_type = (s.knobs m).write_type
  tank_channel_eq : ∀ m, (s'.knobs m).tank_channel = (s.knobs m).tank_channel
  proxyMode_eq : ∀ m, (s'.knobs m).proxyMode = (s.knobs m).proxyMode
  path_warning_eq : ∀ m, (s'.knobs m).path_warning = (s.knobs m).path_warning
  path_warning_visible_eq : ∀ m, (s'.knobs m).path_warning_visible = (s.knobs m).path_warning_visible
  reset_path_visible_eq : ∀ m, (s'.knobs m).reset_path_visible = (s.knobs m).reset_path_visible

/-- Frame predicate for the UI tail of `__update_render_path`: the render
warning and output-knob visibility writes preserve the warning, reset-button,
cached-path knobs and the settings cache. -/
structure UIPres (s sp : HState) : Prop where
  path_warning_eq : ∀ m, (sp.knobs m).path_warning = (s.knobs m).path_warning
  path_warning_visible_eq :
    ∀ m, (sp.knobs m).path_warning_visible = (s.knobs m).path_warning_visible
  reset_path_visible_eq :
    ∀ m, (sp.knobs m).reset_path_visible = (s.knobs m).reset_path_visible
  cached_path_eq : ∀ m, (sp.knobs m).cached_path = (s.knobs m).cached_path
  tk_cached_proxy_path_eq :
    ∀ m, (sp.knobs m).tk_cached_proxy_path = (s.knobs m).tk_cached_proxy_path
  tk_last_known_script_eq :
    ∀ m, (sp.knobs m).tk_last_known_script = (s.knobs m).tk_last_known_script
  settingsCache_eq : sp.settingsCache = s.settingsCache


/-- Work-file template for the C1 recovered-computation scenario. -/
def stC1 : Template where
  keys := []
  isOptional := fun _ => false
  applyFields := fun _ => .error "na"
  getFields := fun _ => .ok [("Shot", .str "sh01")]
  validatePath := fun _ => true

/-- Render template for the C1 recovered-computation scenario: it reproduces
the cached path and extracts matching (empty) field sets. -/
def tC1 : Template where
  keys := []
  isOptional := fun _ => false
  applyFields := fun _ => .ok "/old/path.exr"
  getFields := fun _ => .ok []
  validatePath := fun _ => true

/-- State for the C1 scenario variant in which computation succeeds and the
lock detector agrees with the cached path. -/
def sC1y : HState :=
  { baseState with
    templatesByName := fun nm => if nm = "rtC1" then some tC1 else none,
    scriptTemplate := some stC1,
    scriptPath := some "w.nk",
    knobs := fun _ => { defKnobs with
      cached_path := "/old/path.exr", tmplName := fun _ => "rtC1" } }

-- FIXTURES-END (new definitions are inserted above this line)

@[simp] theorem setKnobs_knobs (s : HState) (n : Node) (k : Knobs) (m : Node) :
    (setKnobs s n k).knobs m = if m = n then k else s.knobs m := rfl

@[simp] theorem setKnobs_profiles (s : HState) (n : Node) (k : Knobs) :
    (setKnobs s n k).profiles = s.profiles := rfl

@[simp] theorem setKnobs_templatesByName (s : HState) (n : Node) (k : Knobs) :
    (setKnobs s n k).templatesByName = s.templatesByName := rfl

@[simp] theorem setKnobs_scriptTemplate (s : HState) (n : Node) (k : Knobs) :
    (setKnobs s n k).scriptTemplate = s.scriptTemplate := rfl

@[simp] theorem setKnobs_ctx (s : HState) (n : Node) (k : Knobs) :
    (setKnobs s n k).ctx = s.ctx := rfl

@[simp] theorem setKnobs_scriptPath (s : HState) (n : Node) (k : Knobs) :
    (setKnobs s n k).scriptPath = s.scriptPath := rfl

@[simp] theorem setKnobs_osSep (s : HState) (n : Node) (k : Knobs) :
    (setKnobs s n k).osSep = s.osSep := rfl

@[simp] theorem setKnobs_today (s : HState) (n : Node) (k : Knobs) :
    (setKnobs s n k).today = s.today := rfl

@[simp] theorem setKnobs_dims (s : HState) (n : Node) (k : Knobs) :
    (setKnobs s n k).dims = s.dims := rfl

@[simp] theorem setKnobs_proxyDims (s : HState) (n : Node) (k : Knobs) :
    (setKnobs s n k).proxyDims = s.proxyDims := rfl

@[simp] theorem setKnobs_nodes (s : HState) (n : Node) (k : Knobs) :
    (setKnobs s n k).nodes = s.nodes := rfl

@[simp] theorem setKnobs_currentlyRendering (s : HState) (n : Node) (k : Knobs) :
    (setKnobs s n k).currentlyRendering = s.currentlyRendering := rfl

@[simp] theorem setKnobs_settingsCache (s : HState) (n : Node) (k : Knobs) :
    (setKnobs s n k).settingsCache = s.settingsCache := rfl

@[simp] theorem setKnobs_isUpdatingRenderPath (s : HState) (n : Node) (k : Knobs) :
    (setKnobs s n k).isUpdatingRenderPath = s.isUpdatingRenderPath := rfl

@[simp] theorem setKnobs_isUpdatingProxyPath (s : HState) (n : Node) (k : Knobs) :
    (setKnobs s n k).isUpdatingProxyPath = s.isUpdatingProxyPath := rfl

theorem tmplPres_refl (s : HState) : TmplPres s s :=
  ⟨rfl, rfl, rfl, rfl, rfl, rfl, rfl, rfl, rfl, rfl, rfl, rfl, rfl, rfl,
   fun _ => rfl, fun _ => rfl, fun _ => rfl, fun _ => rfl, fun _ => rfl,
   fun _ => rfl, fun _ => rfl, fun _ => rfl, fun _ => rfl, fun _ => rfl⟩

theorem tmplPres_trans {s₁ s₂ s₃ : HState} (h₁ : TmplPres s₁ s₂) (h₂ : TmplPres s₂ s₃) :
    TmplPres s₁ s₃ := by
  constructor <;>
    first
      | exact h₂.profiles_eq.trans h₁.profiles_eq
      | exact h₂.templatesByName_eq.trans h₁.templatesByName_eq
      | exact h₂.scriptTemplate_eq.trans h₁.scriptTemplate_eq
      | exact h₂.ctx_eq.trans h₁.ctx_eq
      | exact h₂.scriptPath_eq.trans h₁.scriptPath_eq
      | exact h₂.osSep_eq.trans h₁.osSep_eq
      | exact h₂.today_eq.trans h₁.today_eq
      | exact h₂.dims_eq.trans h₁.dims_eq
      | exact h₂.proxyDims_eq.trans h₁.proxyDims_eq
      | exact h₂.nodes_eq.trans h₁.nodes_eq
      | exact h₂.currentlyRendering_eq.trans h₁.currentlyRendering_eq
      | exact h₂.settingsCache_eq.trans h₁.settingsCache_eq
      | exact h₂.isUpdatingRenderPath_eq.trans h₁.isUpdatingRenderPath_eq
      | exact h₂.isUpdatingProxyPath_eq.trans h₁.isUpdatingProxyPath_eq
      | exact fun m => (h₂.cached_path_eq m).trans (h₁.cached_path_eq m)
      | exact fun m => (h₂.tk_cached_proxy_path_eq m).trans (h₁.tk_cached_proxy_path_eq m)
      | exact fun m => (h₂.tk_last_known_script_eq m).trans (h₁.tk_last_known_script_eq m)
      | exact fun m => (h₂.profile_name_eq m).trans (h₁.profile_name_eq m)
      | exact fun m => (h₂.write_type_eq m).trans (h₁.write_type_eq m)
      | exact fun m => (h₂.tank_channel_eq m).trans (h₁.tank_channel_eq m)
      | exact fun m => (h₂.proxyMode_eq m).trans (h₁.proxyMode_eq m)
      | exact fun m => (h₂.path_warning_eq m).trans (h₁.path_warning_eq m)
      | exact fun m => (h₂.path_warning_visible_eq m).trans (h₁.path_warning_visible_eq m)
      | exact fun m => (h₂.reset_path_visible_eq m).trans (h₁.reset_path_visible_eq m)

theorem tmplPres_setTmplNameKnob (s : HState) (n : Node) (name v : String) :
    TmplPres s (setTmplNameKnob s n name v) := by
  unfold setTmplNameKnob
  dsimp only
  split
  · exact tmplPres_refl s
  · constructor <;> intros <;> simp [setKnobs] <;> split <;> simp_all

theorem tmplPres_getTemplate (s : HState) (n : Node) (name : String) :
    TmplPres s (getTemplate s n name).2 := by
  unfold getTemplate
  cases getNodeProfileSettings s n with
  | none => exact tmplPres_refl s
  | some settings =>
    dsimp only
    split
    · exact tmplPres_setTmplNameKnob ..
    · exact tmplPres_refl s

theorem tmplPres_getRenderTemplate (s : HState) (n : Node) (wt : String)
    (ip fb : Bool) : TmplPres s (getRenderTemplate s n wt ip fb).2 := by
  unfold getRenderTemplate
  split <;> [skip; split] <;> [skip; skip; split] <;> [skip; skip; skip; split] <;>
    [skip; skip; skip; skip; split] <;> [skip; skip; skip; skip; skip; split] <;>
    first
      | (dsimp only; split <;> exact tmplPres_getTemplate ..)
      | exact tmplPres_getTemplate ..

theorem tmplPres_gatherFull (s : HState) (n : Node) :
    TmplPres s (gatherRenderSettingsFull s n).2 := by
  unfold gatherRenderSettingsFull
  dsimp only
  have h := tmplPres_getRenderTemplate s n ((s.knobs n).write_type) false false
  revert h
  rcases getRenderTemplate s n ((s.knobs n).write_type) false false with ⟨rt, s₁⟩
  intro h
  exact h

theorem tmplPres_gather (s : HState) (n : Node) (ip : Bool) :
    TmplPres s (gatherRenderSettings s n ip).2 := by
  cases ip with
  | false => exact tmplPres_gatherFull s n
  | true =>
    unfold gatherRenderSettings
    dsimp only
    have h := tmplPres_getRenderTemplate s n ((s.knobs n).write_type) true false
    revert h
    rcases getRenderTemplate s n ((s.knobs n).write_type) true false with ⟨rt, s₁⟩
    intro h
    cases rt with
    | none => exact tmplPres_trans h (tmplPres_gatherFull s₁ n)
    | some t => exact h

theorem tmplPres_computeRenderPath (s : HState) (n : Node) (ip : Bool) :
    TmplPres s (computeRenderPath s n ip).2 := by
  unfold computeRenderPath
  have h := tmplPres_gather s n ip
  revert h
  rcases gatherRenderSettings s n ip with ⟨⟨rt, w, hh, out⟩, s₁⟩
  intro h
  exact h

theorem tmplPres_getRenderPath (s : HState) (n : Node) (ip : Bool) :
    TmplPres s (getRenderPath s n ip).2 := by
  unfold getRenderPath
  dsimp only
  split
  · have h := tmplPres_computeRenderPath s n ip
    revert h
    rcases computeRenderPath s n ip with ⟨r, s₁⟩
    intro h
    rcases r with e | p
    · cases e <;> exact h
    · exact h
  · exact tmplPres_refl s

theorem tmplPres_isOutputUsed (s : HState) (n : Node) :
    TmplPres s (isOutputUsed s n).2 := by
  unfold isOutputUsed
  dsimp only
  have h₁ := tmplPres_getRenderTemplate s n ((s.knobs n).write_type) false false
  revert h₁
  rcases getRenderTemplate s n ((s.knobs n).write_type) false false with ⟨rt, s₁⟩
  intro h₁
  have h₂ := tmplPres_getRenderTemplate s₁ n ((s.knobs n).write_type) true false
  revert h₂
  rcases getRenderTemplate s₁ n ((s.knobs n).write_type) true false with ⟨pt, s₂⟩
  intro h₂
  exact tmplPres_trans h₁ h₂

theorem lockCompare_eq_false (prev newF : Fields)
    (hlen : newF.length = prev.length)
    (hkeys : ∀ kv ∈ newF, (fieldsGet prev kv.1).isSome = true)
    (hvols : ∀ kv ∈ newF, kv.1 ∉ volatileFields → fieldsGet prev kv.1 = some kv.2) :
    lockCompare prev newF = false := by
  unfold lockCompare
  simp only [hlen, ne_eq, not_true_eq_false, decide_False, Bool.false_or, List.any_eq_false]
  intro kv hm
  unfold fieldsMismatch
  rcases hv : fieldsGet prev kv.1 with _ | v
  · have h := hkeys kv hm
    rw [hv] at h
    simp at h
  · by_cases hvol : kv.1 ∈ volatileFields
    · simp [hvol]
    · have h := hvols kv hm hvol
      rw [hv] at h
      simp only [Option.some.injEq] at h
      simp [hvol, h]

/-- C2: when the cached path is non-empty and the freshly computed path and
the cached path extract field sets through the render template that agree on
every key and differ at most in the values of the volatile fields `width`,
`height`, `YYYY`, `MM`, `DD`, the lock detector `__is_render_path_locked`
reports the path as not locked. -/
theorem C2_volatile_fields_never_lock (s : HState) (n : Node) (ip : Bool)
    (rp cp : String) (t : Template) (s' : HState) (prev newF : Fields)
    (hrt : getRenderTemplate s n ((s.knobs n).write_type) ip true = (some t, s'))
    (hcp : cp ≠ "")
    (hprev : t.getFields cp = .ok prev)
    (hnew : t.getFields rp = .ok newF)
    (hlen : newF.length = prev.length)
    (hkeys : ∀ kv ∈ newF, (fieldsGet prev kv.1).isSome = true)
    (hvols : ∀ kv ∈ newF, kv.1 ∉ volatileFields → fieldsGet prev kv.1 = some kv.2) :
    isRenderPathLocked s n rp cp ip = (.ok false, s') := by
  unfold isRenderPathLocked
  dsimp only
  rw [hrt]
  dsimp only
  rw [if_neg hcp, hprev, hnew]
  dsimp only
  rw [lockCompare_eq_false prev newF hlen hkeys hvols]

theorem C2_volatile_fields_never_lock_witness :
    getRenderTemplate sC2 0 ((sC2.knobs 0).write_type) false true = (some tC2, sC2) ∧
    "/r/old_1920.exr" ≠ "" ∧
    tC2.getFields "/r/old_1920.exr" =
      .ok [("Shot", .str "sh01"), ("width", .int 1920), ("YYYY", .int 2025)] ∧
    tC2.getFields "/r/new_2048.exr" =
      .ok [("Shot", .str "sh01"), ("width", .int 2048), ("YYYY", .int 2026)] ∧
    isRenderPathLocked sC2 0 "/r/new_2048.exr" "/r/old_1920.exr" false = (.ok false, sC2) :=
  ⟨rfl, by decide, rfl, rfl,
    C2_volatile_fields_never_lock sC2 0 false "/r/new_2048.exr" "/r/old_1920.exr" tC2 sC2
      [("Shot", .str "sh01"), ("width", .int 1920), ("YYYY", .int 2025)]
      [("Shot", .str "sh01"), ("width", .int 2048), ("YYYY", .int 2026)]
      rfl (by decide) rfl rfl rfl (by decide) (by decide)⟩

/-- C10: a node whose cached path is empty is never considered locked, as long
as the render template resolves: `__is_render_path_locked` returns `false`
before testing anything else. -/
theorem C10_uncached_never_locked (s : HState) (n : Node) (ip : Bool)
    (rp : String) (t : Template) (s' : HState)
    (hrt : getRenderTemplate s n ((s.knobs n).write_type) ip true = (some t, s')) :
    isRenderPathLocked s n rp "" ip = (.ok false, s') := by
  unfold isRenderPathLocked
  dsimp only
  rw [hrt]
  dsimp only
  rw [if_pos rfl]

theorem C10_uncached_never_locked_witness :
    getRenderTemplate sC10 0 ((sC10.knobs 0).write_type) false true = (some tC10, sC10) ∧
    isRenderPathLocked sC10 0 "/any/path.exr" "" false = (.ok false, sC10) :=
  ⟨rfl, C10_uncached_never_locked sC10 0 false "/any/path.exr" tC10 sC10 rfl⟩

theorem updateRenderPath_of_rendering (s : HState) (n : Node) (force ip : Bool)
    (h : n ∈ s.currentlyRendering) :
    updateRenderPath s n force ip = (.ok (readCachedPath s n ip), setFlag s ip false) := by
  unfold updateRenderPath updateRenderPathCore
  dsimp only
  rw [if_pos h]

theorem mem_onBeforeRenderGizmo (s : HState) (n : Node) :
    n ∈ (onBeforeRenderGizmo s n).currentlyRendering := by
  unfold onBeforeRenderGizmo
  dsimp only
  split
  · assumption
  · exact List.mem_cons_self ..

/-- C5: for a node in the rendering set, `__update_render_path` returns the
cached path of the requested mode unconditionally and performs no
recomputation, cache mutation or knob update (only the `finally` clause
clears the mode's in-progress flag); and a node is in the rendering set from
the pre-render callback on, so no recomputation happens between the
pre-render and post-render events. -/
theorem C5_rendering_suppresses_update (s : HState) (n : Node) (force ip : Bool)
    (h : n ∈ s.currentlyRendering) :
    updateRenderPath s n force ip = (.ok (readCachedPath s n ip), setFlag s ip false) ∧
    (setFlag s ip false).knobs = s.knobs ∧
    (setFlag s ip false).settingsCache = s.settingsCache ∧
    ∀ s₀ f i, updateRenderPath (onBeforeRenderGizmo s₀ n) n f i =
      (.ok (readCachedPath (onBeforeRenderGizmo s₀ n) n i),
        setFlag (onBeforeRenderGizmo s₀ n) i false) := by
  refine ⟨updateRenderPath_of_rendering s n force ip h, ?_, ?_, ?_⟩
  · cases ip <;> rfl
  · cases ip <;> rfl
  · intro s₀ f i
    exact updateRenderPath_of_rendering _ n f i (mem_onBeforeRenderGizmo s₀ n)

theorem C5_rendering_suppresses_update_witness :
    (0 : Node) ∈ sC5.currentlyRendering ∧
    updateRenderPath sC5 0 false false =
      (.ok (readCachedPath sC5 0 false), setFlag sC5 false false) ∧
    readCachedPath sC5 0 false = "CACHED_FULL" :=
  ⟨by decide, (C5_rendering_suppresses_update sC5 0 false false (by decide)).1, rfl⟩

/-- C4 (amended): the re-entrancy guard is keyed per resolution mode on the
handler, not per (node, mode): while the mode's in-progress flag is set, an
update call for that mode - for any node - returns that node's cached path
immediately without entering the computation logic, and the `finally` clause
then clears the flag. -/
theorem C4_mode_guard_returns_cached (s : HState) (n : Node) (force ip : Bool)
    (hflag : getFlag s ip = true) :
    updateRenderPath s n force ip = (.ok (readCachedPath s n ip), setFlag s ip false) := by
  unfold updateRenderPath updateRenderPathCore
  dsimp only
  by_cases h : n ∈ s.currentlyRendering
  · rw [if_pos h]
  · rw [if_neg h]
    simp only [hflag, if_true]

theorem C4_mode_guard_returns_cached_witness :
    getFlag sC4 false = true ∧
    updateRenderPath sC4 1 false false =
      (.ok (readCachedPath sC4 1 false), setFlag sC4 false false) :=
  ⟨rfl, C4_mode_guard_returns_cached sC4 1 false false rfl⟩

/-- C4 counterexample: the guard is not per-node.  In `sC4` the
full-resolution in-progress flag is set (by some other node's update, node 1
is not rendering and has started nothing); node 1's update nevertheless skips
recomputation and returns its stale cached path "OLD_B", while the identical
state with the flag cleared recomputes and returns "NEW_B". -/
theorem C4_counterexample :
    sC4.isUpdatingRenderPath = true ∧
    (updateRenderPath sC4 1 false false).1 = .ok "OLD_B" ∧
    (updateRenderPath (setFlag sC4 false false) 1 false false).1 = .ok "NEW_B" ∧
    ("OLD_B" : String) ≠ "NEW_B" :=
  ⟨rfl, by decide, by decide, by decide⟩

/-- C8: when the proxy render template is undefined, gathering the proxy
render settings transparently falls back to the full-resolution settings:
the full-resolution render template and the full-resolution node dimensions
(`dims`, not `proxyDims` - which template resolution leaves untouched). -/
theorem C8_proxy_fallback (s : HState) (n : Node) (s₁ s₂ : HState) (tf : Template)
    (hproxy : getRenderTemplate s n ((s.knobs n).write_type) true false = (none, s₁))
    (hfull : getRenderTemplate s₁ n ((s₁.knobs n).write_type) false false = (some tf, s₂)) :
    gatherRenderSettings s n true =
      ((some tf, (s₂.dims n).1, (s₂.dims n).2,
        if hasOutputKey (some tf) then (s₂.knobs n).tank_channel else ""), s₂) ∧
    s₂.dims n = s.dims n := by
  constructor
  · unfold gatherRenderSettings
    dsimp only
    rw [hproxy]
    unfold gatherRenderSettingsFull
    dsimp only
    rw [hfull]
  · have h₁ := tmplPres_getRenderTemplate s n ((s.knobs n).write_type) true false
    rw [hproxy] at h₁
    have h₂ := tmplPres_getRenderTemplate s₁ n ((s₁.knobs n).write_type) false false
    rw [hfull] at h₂
    exact congrFun (tmplPres_trans h₁ h₂).dims_eq n

theorem C8_proxy_fallback_witness :
    getRenderTemplate sC8 0 ((sC8.knobs 0).write_type) true false = (none, sC8) ∧
    getRenderTemplate sC8 0 ((sC8.knobs 0).write_type) false false = (some tC8, sC8) ∧
    gatherRenderSettings sC8 0 true =
      ((some tC8, (sC8.dims 0).1, (sC8.dims 0).2,
        if hasOutputKey (some tC8) then (sC8.knobs 0).tank_channel else ""), sC8) :=
  ⟨rfl, rfl, (C8_proxy_fallback sC8 0 sC8 sC8 tC8 rfl rfl).1⟩

/-- C6 counterexample: node 0 of `sC6` references the deleted profile
"gone" and has cached path "/old/path.exr", but `compute_render_path` does
not return that cached value - it resolves the template cached on the node's
knob, proceeds with the computation and raises (here because the script was
never saved). -/
theorem C6_counterexample :
    (sC6.knobs 0).profile_name = "gone" ∧
    sC6.profiles = [] ∧
    readCachedPath sC6 0 false = "/old/path.exr" ∧
    (compute_render_path sC6 0).1 =
      .error (.compute "The current script is not a Shotgun Work File!") ∧
    (compute_render_path sC6 0).1 ≠ .ok "/old/path.exr" :=
  ⟨rfl, rfl, rfl, by decide, by decide⟩

/-- C6 (amended): when a node's profile no longer exists, template
resolution falls back to the template name cached on the node's own knob and
path computation proceeds from it without mutating any state - it does not
return the previously cached path and it may still fail (as the
counterexample shows). -/
theorem C6_missing_profile_uses_cached_template_name (s : HState) (n : Node)
    (hprof : getNodeProfileSettings s n = none)
    (hwt : (s.knobs n).write_type ≠ "Element" ∧ (s.knobs n).write_type ≠ "Denoise" ∧
      (s.knobs n).write_type ≠ "SmartVector" ∧ (s.knobs n).write_type ≠ "STMap" ∧
      (s.knobs n).write_type ≠ "Test") :
    compute_render_path s n =
      (computeRenderPathFrom s (s.templatesByName ((s.knobs n).tmplName "render_template"))
        (s.dims n).1 (s.dims n).2
        (if hasOutputKey (s.templatesByName ((s.knobs n).tmplName "render_template"))
          then (s.knobs n).tank_channel else ""), s) := by
  obtain ⟨h1, h2, h3, h4, h5⟩ := hwt
  unfold compute_render_path computeRenderPath gatherRenderSettings gatherRenderSettingsFull
  dsimp only
  unfold getRenderTemplate
  rw [if_neg (by simp), if_neg h1, if_neg h2, if_neg h3, if_neg h4, if_neg h5]
  unfold getTemplate
  rw [hprof]

theorem C6_missing_profile_uses_cached_template_name_witness :
    getNodeProfileSettings sC6 0 = none ∧
    (sC6.knobs 0).write_type = "Version" ∧
    compute_render_path sC6 0 =
      (computeRenderPathFrom sC6 (sC6.templatesByName ((sC6.knobs 0).tmplName "render_template"))
        (sC6.dims 0).1 (sC6.dims 0).2
        (if hasOutputKey (sC6.templatesByName ((sC6.knobs 0).tmplName "render_template"))
          then (sC6.knobs 0).tank_channel else ""), sC6) :=
  ⟨rfl, rfl,
    C6_missing_profile_uses_cached_template_name sC6 0 rfl
      ⟨by decide, by decide, by decide, by decide, by decide⟩⟩

theorem fieldsGet_cons (kv : String × FVal) (f : Fields) (k : String) :
    fieldsGet (kv :: f) k = if kv.1 = k then some kv.2 else fieldsGet f k := by
  by_cases h : kv.1 = k <;> simp [fieldsGet, List.find?, h]

theorem fieldsGet_fieldsDel_self (f : Fields) (k : String) :
    fieldsGet (fieldsDel f k) k = none := by
  induction f with
  | nil => rfl
  | cons kv rest ih =>
    by_cases h : kv.1 = k
    · rw [show fieldsDel (kv :: rest) k = fieldsDel rest k by
            simp [fieldsDel, List.filter_cons, h]]
      exact ih
    · rw [show fieldsDel (kv :: rest) k = kv :: fieldsDel rest k by
            simp [fieldsDel, List.filter_cons, h],
          fieldsGet_cons, if_neg h]
      exact ih

theorem fieldsGet_fieldsDel_ne (f : Fields) (k k' : String) (h : k' ≠ k) :
    fieldsGet (fieldsDel f k) k' = fieldsGet f k' := by
  induction f with
  | nil => rfl
  | cons kv rest ih =>
    by_cases hk : kv.1 = k
    · have hne : kv.1 ≠ k' := by rw [hk]; exact Ne.symm h
      rw [show fieldsDel (kv :: rest) k = fieldsDel rest k by
            simp [fieldsDel, List.filter_cons, hk],
          ih, fieldsGet_cons, if_neg hne]
    · rw [show fieldsDel (kv :: rest) k = kv :: fieldsDel rest k by
            simp [fieldsDel, List.filter_cons, hk],
          fieldsGet_cons, fieldsGet_cons, ih]

theorem fieldsGet_map_overwrite_ne (f : Fields) (k k' : String) (v : FVal) (h : k' ≠ k) :
    fieldsGet (f.map (fun kv => if kv.1 = k then (k, v) else kv)) k' = fieldsGet f k' := by
  induction f with
  | nil => rfl
  | cons kv rest ih =>
    by_cases hk : kv.1 = k
    · rw [List.map_cons, if_pos hk, fieldsGet_cons, fieldsGet_cons, hk]
      rw [if_neg (Ne.symm h), if_neg (Ne.symm h)]
      exact ih
    · rw [List.map_cons, if_neg hk, fieldsGet_cons, fieldsGet_cons, ih]

theorem fieldsGet_append_single_ne (f : Fields) (k k' : String) (v : FVal) (h : k' ≠ k) :
    fieldsGet (f ++ [(k, v)]) k' = fieldsGet f k' := by
  induction f with
  | nil =>
    rw [List.nil_append, fieldsGet_cons, if_neg (Ne.symm h)]
  | cons kv rest ih =>
    rw [List.cons_append, fieldsGet_cons, fieldsGet_cons, ih]

theorem fieldsGet_fieldsSet_ne (f : Fields) (k k' : String) (v : FVal) (h : k' ≠ k) :
    fieldsGet (fieldsSet f k v) k' = fieldsGet f k' := by
  unfold fieldsSet
  split
  · exact fieldsGet_map_overwrite_ne f k k' v h
  · exact fieldsGet_append_single_ne f k k' v h

theorem fieldsGet_fieldsUpdate_none (f g : Fields) (k : String)
    (hf : fieldsGet f k = none) (hg : fieldsGet g k = none) :
    fieldsGet (fieldsUpdate f g) k = none := by
  induction g generalizing f with
  | nil => exact hf
  | cons kv rest ih =>
    rw [fieldsGet_cons] at hg
    by_cases h : kv.1 = k
    · rw [if_pos h] at hg; exact absurd hg (by simp)
    · rw [if_neg h] at hg
      unfold fieldsUpdate at ih ⊢
      simp only [List.foldl]
      exact ih (fieldsSet f kv.1 kv.2)
        ((fieldsGet_fieldsSet_ne f kv.1 k kv.2 (fun hc => h hc.symm)).trans hf) hg

theorem applyOutputKeyRules_no_key (t : Template) (out : String) (f : Fields)
    (k : String) (hk : keyFind t k = none) :
    applyOutputKeyRules t out f k = .ok (fieldsDel f k) := by
  unfold applyOutputKeyRules
  rw [hk]

theorem applyOutputKeyRules_empty_ok (t : Template) (f : Fields) (k : String)
    (h : keyFind t k = none ∨ t.isOptional k = true) :
    applyOutputKeyRules t "" f k = .ok (fieldsDel f k) := by
  rcases h with h | h
  · exact applyOutputKeyRules_no_key t "" f k h
  · unfold applyOutputKeyRules
    rcases hk : keyFind t k with _ | key
    · rfl
    · simp [h]

theorem applyOutputKeyRules_required_err (t : Template) (f : Fields) (k : String)
    (key : TemplateKey) (hk : keyFind t k = some key) (hopt : t.isOptional k = false) :
    applyOutputKeyRules t "" f k =
      .error (.compute ("A valid output name is required by this profile for the '"
        ++ k ++ "' field!")) := by
  unfold applyOutputKeyRules
  rw [hk]
  simp [hopt]

theorem applyOutputKeyRules_illegal_err (t : Template) (f : Fields) (k : String)
    (key : TemplateKey) (out : String) (hne : out ≠ "")
    (hk : keyFind t k = some key) (hv : key.validate out = false) :
    applyOutputKeyRules t out f k =
      .error (.compute ("The output name '" ++ out ++ "' contains illegal characters!")) := by
  unfold applyOutputKeyRules
  rw [hk]
  simp [hne, hv]

/-- C3: output-name validation in `__compute_render_path_from`, for a
template that declares an `"output"` key (or, legacy, a `"channel"` key),
given a recognised work file (`scriptFields` succeeds with a non-empty field
set):
1. empty output name, non-optional "output" key → required-output error;
2. empty output name, no "output" key, non-optional "channel" key →
   required-output error naming "channel";
3. non-empty output name failing the "output" key's validation →
   illegal-characters error;
4. non-empty output name, no "output" key, failing the "channel" key's
   validation → illegal-characters error;
5. empty output name with every declared output/channel key optional →
   computation proceeds and the fields applied to the template contain
   neither "output" nor "channel": it succeeds (with the output field
   omitted) exactly when the template application succeeds. -/
theorem C3_output_key_validation (s : HState) (t : Template) (w h : Nat)
    (output_name : String) (f₀ : Fields)
    (hsf : scriptFields s = .ok f₀) (hne : f₀ ≠ []) :
    (∀ key, output_name = "" → keyFind t "output" = some key →
      t.isOptional "output" = false →
      computeRenderPathFrom s (some t) w h output_name =
        .error (.compute "A valid output name is required by this profile for the 'output' field!")) ∧
    (∀ key, output_name = "" → keyFind t "output" = none →
      keyFind t "channel" = some key → t.isOptional "channel" = false →
      computeRenderPathFrom s (some t) w h output_name =
        .error (.compute "A valid output name is required by this profile for the 'channel' field!")) ∧
    (∀ key, output_name ≠ "" → keyFind t "output" = some key →
      key.validate output_name = false →
      computeRenderPathFrom s (some t) w h output_name =
        .error (.compute ("The output name '" ++ output_name ++ "' contains illegal characters!"))) ∧
    (∀ key, output_name ≠ "" → keyFind t "output" = none →
      keyFind t "channel" = some key → key.validate output_name = false →
      computeRenderPathFrom s (some t) w h output_name =
        .error (.compute ("The output name '" ++ output_name ++ "' contains illegal characters!"))) ∧
    (output_name = "" →
      (keyFind t "output" = none ∨ t.isOptional "output" = true) →
      (keyFind t "channel" = none ∨ t.isOptional "channel" = true) →
      fieldsGet (s.ctx.asTemplateFields t) "output" = none →
      fieldsGet (s.ctx.asTemplateFields t) "channel" = none →
      ∃ F, fieldsGet F "output" = none ∧ fieldsGet F "channel" = none ∧
        computeRenderPathFrom s (some t) w h output_name =
          (match t.applyFields F with
           | .ok path => .ok (normalizeSeparators s.osSep path)
           | .error e => .error (.compute e))) := by
  unfold computeRenderPathFrom
  rw [hsf]
  dsimp only
  rw [if_neg hne]
  refine ⟨?_, ?_, ?_, ?_, ?_⟩
  · intro key hout hk hopt
    rw [hout, applyOutputKeyRules_required_err t _ "output" key hk hopt]
    rfl
  · intro key hout hko hkc hopt
    rw [hout, applyOutputKeyRules_no_key t "" _ "output" hko]
    dsimp only
    rw [applyOutputKeyRules_required_err t _ "channel" key hkc hopt]
    rfl
  · intro key hout hk hval
    rw [applyOutputKeyRules_illegal_err t _ "output" key output_name hout hk hval]
  · intro key hout hko hkc hval
    rw [applyOutputKeyRules_no_key t output_name _ "output" hko]
    dsimp only
    rw [applyOutputKeyRules_illegal_err t _ "channel" key output_name hout hkc hval]
  · intro hout hoptO hoptC hctxO hctxC
    rw [hout, applyOutputKeyRules_empty_ok t _ "output" hoptO]
    dsimp only
    rw [applyOutputKeyRules_empty_ok t _ "channel" hoptC]
    dsimp only
    refine ⟨_, ?_, ?_, rfl⟩
    · refine fieldsGet_fieldsUpdate_none _ _ "output" ?_ hctxO
      rw [fieldsGet_fieldsDel_ne _ "channel" "output" (by decide)]
      exact fieldsGet_fieldsDel_self _ "output"
    · exact fieldsGet_fieldsUpdate_none _ _ "channel" (fieldsGet_fieldsDel_self _ "channel") hctxC

theorem C3_output_key_validation_witness :
    scriptFields sC3 = .ok [("Shot", .str "sh01")] ∧
    ([("Shot", FVal.str "sh01")] : Fields) ≠ [] ∧
    computeRenderPathFrom sC3 (some tC3req) 1920 1080 "" =
      .error (.compute "A valid output name is required by this profile for the 'output' field!") ∧
    computeRenderPathFrom sC3 (some tC3req) 1920 1080 "bad/name" =
      .error (.compute ("The output name '" ++ "bad/name" ++ "' contains illegal characters!")) ∧
    (∃ F, fieldsGet F "output" = none ∧ fieldsGet F "channel" = none ∧
      computeRenderPathFrom sC3 (some tC3opt) 1920 1080 "" =
        (match tC3opt.applyFields F with
         | .ok path => .ok (normalizeSeparators sC3.osSep path)
         | .error e => .error (.compute e))) :=
  ⟨rfl, by decide,
    (C3_output_key_validation sC3 tC3req 1920 1080 "" [("Shot", .str "sh01")] rfl
      (by decide)).1 ⟨fun v => !v.data.contains '/'⟩ rfl rfl rfl,
    (C3_output_key_validation sC3 tC3req 1920 1080 "bad/name" [("Shot", .str "sh01")] rfl
      (by decide)).2.2.1 ⟨fun v => !v.data.contains '/'⟩ (by decide) rfl rfl,
    (C3_output_key_validation sC3 tC3opt 1920 1080 "" [("Shot", .str "sh01")] rfl
      (by decide)).2.2.2.2 rfl (Or.inr rfl) (Or.inl rfl) rfl rfl⟩

theorem getNodeProfileSettings_of_tmplPres {s s' : HState} (hp : TmplPres s s')
    (n : Node) : getNodeProfileSettings s' n = getNodeProfileSettings s n := by
  unfold getNodeProfileSettings
  rw [hp.profile_name_eq n, hp.profiles_eq]

theorem setTmplNameKnob_knob_val (s : HState) (n : Node) (name v : String) :
    ((setTmplNameKnob s n name v).knobs n).tmplName name = v := by
  unfold setTmplNameKnob
  dsimp only
  split
  · assumption
  · simp

theorem setTmplNameKnob_self (s : HState) (n : Node) (name v : String)
    (h : (s.knobs n).tmplName name = v) : setTmplNameKnob s n name v = s := by
  unfold setTmplNameKnob
  dsimp only
  rw [if_pos h]

theorem getTemplate_idem (s : HState) (n : Node) (name : String) :
    getTemplate ((getTemplate s n name).2) n name = getTemplate s n name := by
  rcases h : getNodeProfileSettings s n with _ | settings
  · have he : getTemplate s n name = (s.templatesByName ((s.knobs n).tmplName name), s) := by
      unfold getTemplate
      rw [h]
    rw [he]
    exact he
  · by_cases htn : settings.setting name = ""
    · have he : getTemplate s n name = (s.templatesByName (settings.setting name), s) := by
        unfold getTemplate
        rw [h]
        dsimp only
        rw [if_neg (by simpa using htn)]
      rw [he]
      exact he
    · have he : getTemplate s n name =
          ((setTmplNameKnob s n name (settings.setting name)).templatesByName
            (settings.setting name),
           setTmplNameKnob s n name (settings.setting name)) := by
        unfold getTemplate
        rw [h]
        dsimp only
        rw [if_pos htn]
      rw [he]
      dsimp only
      have hprof : getNodeProfileSettings
          (setTmplNameKnob s n name (settings.setting name)) n = some settings := by
        rw [getNodeProfileSettings_of_tmplPres (tmplPres_setTmplNameKnob s n name _) n, h]
      unfold getTemplate
      rw [hprof]
      dsimp only
      rw [if_pos htn,
        setTmplNameKnob_self _ n name _ (setTmplNameKnob_knob_val s n name _)]

theorem getRenderTemplate_full_false (s : HState) (n : Node) (wt : String) :
    getRenderTemplate s n wt false false = getTemplate s n (fullTemplateSettingName wt) := by
  unfold getRenderTemplate fullTemplateSettingName
  rw [if_neg (by decide)]
  split_ifs <;>
    first
      | rfl
      | (rcases hg : getTemplate s n _ with ⟨t, s₁⟩
         simp)

theorem gatherFull_idem (s : HState) (n : Node) :
    gatherRenderSettingsFull ((gatherRenderSettingsFull s n).2) n =
      gatherRenderSettingsFull s n := by
  unfold gatherRenderSettingsFull
  dsimp only
  rw [getRenderTemplate_full_false s n ((s.knobs n).write_type)]
  rcases hg : getTemplate s n (fullTemplateSettingName ((s.knobs n).write_type)) with ⟨rt, s₁⟩
  dsimp only
  have hpres : TmplPres s s₁ := by
    have h := tmplPres_getTemplate s n (fullTemplateSettingName ((s.knobs n).write_type))
    rw [hg] at h
    exact h
  rw [hpres.write_type_eq n,
    getRenderTemplate_full_false s₁ n ((s.knobs n).write_type)]
  have hidem := getTemplate_idem s n (fullTemplateSettingName ((s.knobs n).write_type))
  rw [hg] at hidem
  rw [hidem]

/-- C7 counterexample: path computation is not mutation-free.  In `sC7` node
0's cached template-name knob holds the stale value "stale" while its profile
names "rtA"; a single call of `compute_render_path` rewrites that knob. -/
theorem C7_counterexample :
    ((sC7.knobs 0).tmplName "render_template") = "stale" ∧
    (((compute_render_path sC7 0).2.knobs 0).tmplName "render_template") = "rtA" ∧
    ("stale" : String) ≠ "rtA" :=
  ⟨rfl, by decide, by decide⟩

/-- C7 (amended): `compute_render_path` is deterministic and stabilising: a
second call with no intervening state change returns the identical result -
the same path or the identical failure - and leaves the state exactly as the
first call left it; and the only state a call can touch at all is the cached
template-name knobs (every other state component and knob field is preserved,
witnessed by the `TmplPres` frame; the path construction itself,
`computeRenderPathFrom`, is a pure function). -/
theorem C7_compute_render_path_stabilizes (s : HState) (n : Node) :
    compute_render_path ((compute_render_path s n).2) n = compute_render_path s n ∧
    TmplPres s (compute_render_path s n).2 := by
  constructor
  · unfold compute_render_path computeRenderPath
    simp only [gatherRenderSettings]
    rcases hg : gatherRenderSettingsFull s n with ⟨⟨rt, w, h, out⟩, s₁⟩
    have h2 := gatherFull_idem s n
    rw [hg] at h2
    dsimp only
    rw [h2]
  · unfold compute_render_path computeRenderPath
    simp only [gatherRenderSettings]
    have h := tmplPres_gatherFull s n
    revert h
    rcases gatherRenderSettingsFull s n with ⟨⟨rt, w, h, out⟩, s₁⟩
    intro hp
    exact hp

/-- C9: on a host document save, `__on_script_save` walks every write node
of the document (a fold of the per-node step over the node list), and for
each node compares the recorded (os-normalised) `tk_last_known_script` knob
with the just-saved script path: on a difference the node is force-reset -
the step ends in the `resetRenderPath` state, which runs
`__update_render_path` with `force_reset` for both resolution modes - while
a node whose last-known script path equals the saved path is left untouched
by its step. -/
theorem C9_save_as_new_file_resets (s : HState) (p : String) (n : Node)
    (hp : s.scriptPath = some p) (hne : p ≠ "") :
    onScriptSave s = s.nodes.foldl (scriptSaveStep p s.osSep) s ∧
    ((if (s.knobs n).tk_last_known_script ≠ "" then
        toOsSeparators s.osSep (s.knobs n).tk_last_known_script
      else (s.knobs n).tk_last_known_script) ≠ p →
        scriptSaveStep p s.osSep s n = (resetRenderPath s n).2) ∧
    ((if (s.knobs n).tk_last_known_script ≠ "" then
        toOsSeparators s.osSep (s.knobs n).tk_last_known_script
      else (s.knobs n).tk_last_known_script) = p →
        scriptSaveStep p s.osSep s n = s) ∧
    (∀ r₁ s₁, updateRenderPath s n true ((s.knobs n).proxyMode) = (.ok r₁, s₁) →
      (resetRenderPath s n).2 =
        (updateRenderPath s₁ n true (!(s.knobs n).proxyMode)).2) := by
  refine ⟨?_, ?_, ?_, ?_⟩
  · unfold onScriptSave
    rw [hp]
    dsimp only
    rw [if_neg hne]
  · intro hd
    unfold scriptSaveStep
    dsimp only
    rw [if_pos hd]
  · intro hd
    unfold scriptSaveStep
    dsimp only
    rw [if_neg (by simpa using hd)]
  · intro r₁ s₁ hupd
    unfold resetRenderPath
    dsimp only
    rw [hupd]

theorem C9_save_as_new_file_resets_witness :
    sC9.scriptPath = some "X" ∧ ("X" : String) ≠ "" ∧
    onScriptSave sC9 = sC9.nodes.foldl (scriptSaveStep "X" sC9.osSep) sC9 ∧
    scriptSaveStep "X" sC9.osSep sC9 0 = (resetRenderPath sC9 0).2 ∧
    sC9b.scriptPath = some "X" ∧
    scriptSaveStep "X" sC9b.osSep sC9b 0 = sC9b ∧
    (resetRenderPath sC9 0).2 =
      (updateRenderPath (updateRenderPath sC9 0 true false).2 0 true
        (!(sC9.knobs 0).proxyMode)).2 :=
  ⟨rfl, by decide,
    (C9_save_as_new_file_resets sC9 "X" 0 rfl (by decide)).1,
    (C9_save_as_new_file_resets sC9 "X" 0 rfl (by decide)).2.1 (by decide),
    rfl,
    (C9_save_as_new_file_resets sC9b "X" 0 rfl (by decide)).2.2.1 (by decide),
    (C9_save_as_new_file_resets sC9 "X" 0 rfl (by decide)).2.2.2 ""
      (updateRenderPath sC9 0 true false).2 rfl⟩

theorem uiPres_refl (s : HState) : UIPres s s :=
  ⟨fun _ => rfl, fun _ => rfl, fun _ => rfl, fun _ => rfl, fun _ => rfl, fun _ => rfl, rfl⟩

theorem uiPres_trans {s₁ s₂ s₃ : HState} (h₁ : UIPres s₁ s₂) (h₂ : UIPres s₂ s₃) :
    UIPres s₁ s₃ :=
  ⟨fun m => (h₂.path_warning_eq m).trans (h₁.path_warning_eq m),
   fun m => (h₂.path_warning_visible_eq m).trans (h₁.path_warning_visible_eq m),
   fun m => (h₂.reset_path_visible_eq m).trans (h₁.reset_path_visible_eq m),
   fun m => (h₂.cached_path_eq m).trans (h₁.cached_path_eq m),
   fun m => (h₂.tk_cached_proxy_path_eq m).trans (h₁.tk_cached_proxy_path_eq m),
   fun m => (h₂.tk_last_known_script_eq m).trans (h₁.tk_last_known_script_eq m),
   h₂.settingsCache_eq.trans h₁.settingsCache_eq⟩

theorem tmplPres_toUIPres {s sp : HState} (h : TmplPres s sp) : UIPres s sp :=
  ⟨h.path_warning_eq, h.path_warning_visible_eq, h.reset_path_visible_eq,
   h.cached_path_eq, h.tk_cached_proxy_path_eq, h.tk_last_known_script_eq,
   h.settingsCache_eq⟩

theorem uiPres_updRenderWarningKnob (s : HState) (n : Node) (v : String) :
    UIPres s (updRenderWarningKnob s n v) := by
  unfold updRenderWarningKnob
  dsimp only
  split
  · exact uiPres_refl s
  · constructor <;> first
      | rfl
      | (intro m; simp only [setKnobs_knobs]; split <;> simp_all)

theorem uiPres_setKnobs_renderWarnVisible (s : HState) (n : Node) (b : Bool) :
    UIPres s (setKnobs s n { s.knobs n with tk_render_warning_visible := b }) := by
  constructor <;> first
    | rfl
    | (intro m; simp only [setKnobs_knobs]; split <;> simp_all)

theorem uiPres_setRenderWarnKnobs (s : HState) (n : Node) (rw : String) :
    UIPres s (setRenderWarnKnobs s n rw) := by
  unfold setRenderWarnKnobs
  split <;>
    (dsimp only
     exact uiPres_trans (uiPres_updRenderWarningKnob s n _)
       (uiPres_setKnobs_renderWarnVisible _ n _))

theorem uiPres_updateOutputKnobs (s : HState) (n : Node) :
    UIPres s (updateOutputKnobs s n) := by
  unfold updateOutputKnobs
  have h := tmplPres_isOutputUsed s n
  revert h
  rcases isOutputUsed s n with ⟨used, s₁⟩
  intro h
  refine uiPres_trans (tmplPres_toUIPres h) ?_
  constructor <;> first
    | rfl
    | (intro m; simp only [setKnobs_knobs]; split <;> simp_all)

theorem setFlag_knobs (s : HState) (ip v : Bool) : (setFlag s ip v).knobs = s.knobs := by
  cases ip <;> rfl

theorem setFlag_scriptPath (s : HState) (ip v : Bool) :
    (setFlag s ip v).scriptPath = s.scriptPath := by
  cases ip <;> rfl

theorem setFlag_settingsCache (s : HState) (ip v : Bool) :
    (setFlag s ip v).settingsCache = s.settingsCache := by
  cases ip <;> rfl

theorem setFlag_currentlyRendering (s : HState) (ip v : Bool) :
    (setFlag s ip v).currentlyRendering = s.currentlyRendering := by
  cases ip <;> rfl

theorem settingsCacheSet_knobs (s : HState) (n : Node) (ip : Bool)
    (v : Option CacheEntry × String × String) :
    (settingsCacheSet s n ip v).knobs = s.knobs := rfl

theorem settingsCacheGet_set_self (s : HState) (n : Node) (ip : Bool)
    (v : Option CacheEntry × String × String) :
    settingsCacheGet (settingsCacheSet s n ip v) n ip = v := by
  unfold settingsCacheGet settingsCacheSet
  simp [List.find?]

theorem String_append_ne_empty_left (a b : String) (h : a ≠ "") : a ++ b ≠ "" := by
  cases a with
  | mk da =>
    cases b with
    | mk db =>
      intro hc
      have hd : da ++ db = [] := congrArg String.data hc
      rcases List.append_eq_nil.mp hd with ⟨h1, _⟩
      exact h (by rw [h1])

theorem computeErrWarning_ne_empty (e c : String) : computeErrWarning e c ≠ "" := by
  unfold computeErrWarning
  apply String_append_ne_empty_left
  apply String_append_ne_empty_left
  apply String_append_ne_empty_left
  apply String_append_ne_empty_left
  decide

theorem updPathWarningKnob_self (s : HState) (n : Node) (v : String) :
    ((updPathWarningKnob s n v).knobs n).path_warning = v := by
  unfold updPathWarningKnob
  dsimp only
  split
  · assumption
  · simp

theorem updPathWarningKnob_knobs_ne (s : HState) (n m : Node) (v : String)
    (h : m ≠ n) : (updPathWarningKnob s n v).knobs m = s.knobs m := by
  unfold updPathWarningKnob
  dsimp only
  split
  · rfl
  · simp [setKnobs_knobs, h]

theorem updPathWarningKnob_cached (s : HState) (n m : Node) (v : String) :
    ((updPathWarningKnob s n v).knobs m).cached_path = (s.knobs m).cached_path := by
  unfold updPathWarningKnob
  dsimp only
  split
  · rfl
  · simp only [setKnobs_knobs]
    split <;> simp_all

theorem updPathWarningKnob_proxyCached (s : HState) (n m : Node) (v : String) :
    ((updPathWarningKnob s n v).knobs m).tk_cached_proxy_path =
      (s.knobs m).tk_cached_proxy_path := by
  unfold updPathWarningKnob
  dsimp only
  split
  · rfl
  · simp only [setKnobs_knobs]
    split <;> simp_all

theorem updPathWarningKnob_lastKnown (s : HState) (n m : Node) (v : String) :
    ((updPathWarningKnob s n v).knobs m).tk_last_known_script =
      (s.knobs m).tk_last_known_script := by
  unfold updPathWarningKnob
  dsimp only
  split
  · rfl
  · simp only [setKnobs_knobs]
    split <;> simp_all

theorem updPathWarningKnob_settingsCache (s : HState) (n : Node) (v : String) :
    (updPathWarningKnob s n v).settingsCache = s.settingsCache := by
  unfold updPathWarningKnob
  dsimp only
  split <;> rfl

theorem uiTail_pres (S3 : HState) (n : Node) (X : String) :
    UIPres S3 (updateOutputKnobs (setRenderWarnKnobs S3 n X) n) :=
  uiPres_trans (uiPres_setRenderWarnKnobs S3 n X) (uiPres_updateOutputKnobs _ n)

theorem readCachedPath_false (s : HState) (n : Node) :
    readCachedPath s n false = (s.knobs n).cached_path := rfl

theorem readCachedPath_true (s : HState) (n : Node) :
    readCachedPath s n true = (s.knobs n).tk_cached_proxy_path := rfl

theorem getRenderPath_of_cached_ne (s : HState) (n : Node)
    (h : (s.knobs n).cached_path ≠ "") :
    getRenderPath s n false = (.ok ((s.knobs n).cached_path), s) := by
  unfold getRenderPath
  rw [readCachedPath_false]
  dsimp only
  rw [if_neg h]

theorem updateUI_err_proj (s : HState) (n : Node) (ip : Bool) (pw rp : String)
    (hdisp : ip = (s.knobs n).proxyMode) (hpw : pw ≠ "")
    (hfull : ip = true → (s.knobs n).cached_path ≠ "") :
    (updateUI s n ip pw false rp).1 = .ok () ∧
    (((updateUI s n ip pw false rp).2).knobs n).path_warning = formatPathWarning pw ∧
    (((updateUI s n ip pw false rp).2).knobs n).path_warning_visible = true ∧
    (((updateUI s n ip pw false rp).2).knobs n).reset_path_visible = false ∧
    (∀ m, (((updateUI s n ip pw false rp).2).knobs m).cached_path =
      (s.knobs m).cached_path) ∧
    (∀ m, (((updateUI s n ip pw false rp).2).knobs m).tk_cached_proxy_path =
      (s.knobs m).tk_cached_proxy_path) ∧
    ((updateUI s n ip pw false rp).2).settingsCache = s.settingsCache := by
  unfold updateUI
  rw [if_pos hdisp, if_pos hpw]
  cases ip with
  | false =>
    dsimp only
    simp only [Bool.false_eq_true, if_false]
    refine ⟨by trivial, ?_, ?_, ?_, ?_, ?_, ?_⟩
    · rw [(uiTail_pres _ n "").path_warning_eq n]
      simp [setKnobs_knobs, updPathWarningKnob_self]
    · rw [(uiTail_pres _ n "").path_warning_visible_eq n]
      simp [setKnobs_knobs]
    · rw [(uiTail_pres _ n "").reset_path_visible_eq n]
      simp [setKnobs_knobs]
    · intro m
      rw [(uiTail_pres _ n "").cached_path_eq m]
      by_cases hm : m = n
      · subst hm
        simp [setKnobs_knobs, updPathWarningKnob_cached]
      · simp [setKnobs_knobs, hm, updPathWarningKnob_knobs_ne _ _ _ _ hm]
    · intro m
      rw [(uiTail_pres _ n "").tk_cached_proxy_path_eq m]
      by_cases hm : m = n
      · subst hm
        simp [setKnobs_knobs, updPathWarningKnob_proxyCached]
      · simp [setKnobs_knobs, hm, updPathWarningKnob_knobs_ne _ _ _ _ hm]
    · rw [(uiTail_pres _ n "").settingsCache_eq]
      simp [setKnobs_knobs, updPathWarningKnob_settingsCache]
  | true =>
    dsimp only
    simp only [eq_self_iff_true, if_true]
    rw [getRenderPath_of_cached_ne _ n
      (by
        simp only [setKnobs_knobs, if_pos rfl]
        rw [updPathWarningKnob_cached]
        exact hfull rfl)]
    dsimp only
    split <;>
      (refine ⟨by trivial, ?_, ?_, ?_, ?_, ?_, ?_⟩
       · rw [(uiTail_pres _ n _).path_warning_eq n]
         simp [setKnobs_knobs, updPathWarningKnob_self]
       · rw [(uiTail_pres _ n _).path_warning_visible_eq n]
         simp [setKnobs_knobs]
       · rw [(uiTail_pres _ n _).reset_path_visible_eq n]
         simp [setKnobs_knobs]
       · intro m
         rw [(uiTail_pres _ n _).cached_path_eq m]
         by_cases hm : m = n
         · subst hm
           simp [setKnobs_knobs, updPathWarningKnob_cached]
         · simp [setKnobs_knobs, hm, updPathWarningKnob_knobs_ne _ _ _ _ hm]
       · intro m
         rw [(uiTail_pres _ n _).tk_cached_proxy_path_eq m]
         by_cases hm : m = n
         · subst hm
           simp [setKnobs_knobs, updPathWarningKnob_proxyCached]
         · simp [setKnobs_knobs, hm, updPathWarningKnob_knobs_ne _ _ _ _ hm]
       · rw [(uiTail_pres _ n _).settingsCache_eq]
         simp [setKnobs_knobs, updPathWarningKnob_settingsCache])


theorem settingsCacheGet_congr {s sp : HState} (n : Node) (ip : Bool)
    (h : sp.settingsCache = s.settingsCache) :
    settingsCacheGet sp n ip = settingsCacheGet s n ip := by
  unfold settingsCacheGet
  rw [h]

/-- C1 (amended): when the path computation performed during
`__update_render_path` fails with a `TkComputePathError`, the previously
cached path is retained (the cached-path knob is untouched) and surfaced as
the returned path, the failure and warning are recorded (warning knob set and
visible, since the updated mode is the node's displayed mode), and the
update does not raise the locked-state affordance (the reset button stays
hidden).  The public `render_path_is_locked`, however, reports `true`
whenever the fresh computation fails - see the counterexample. -/
theorem C1_failure_retains_cached (s : HState) (n : Node) (ip : Bool) (msg : String)
    (rt : Option Template) (w h : Nat) (out : String) (s₁ : HState)
    (hrender : n ∉ s.currentlyRendering)
    (hflag : getFlag s ip = false)
    (hgather : gatherRenderSettings (setFlag s ip true) n ip = ((rt, w, h, out), s₁))
    (hcache : settingsCacheGet s₁ n ip = (none, "", ""))
    (hcompute : computeRenderPathFrom s₁ rt w h out = .error (.compute msg))
    (hdisp : (s.knobs n).proxyMode = ip)
    (hfullc : ip = true → (s.knobs n).cached_path ≠ "") :
    (updateRenderPath s n false ip).1 = .ok (readCachedPath s n ip) ∧
    readCachedPath ((updateRenderPath s n false ip).2) n ip = readCachedPath s n ip ∧
    (((updateRenderPath s n false ip).2).knobs n).path_warning_visible = true ∧
    (((updateRenderPath s n false ip).2).knobs n).path_warning =
      formatPathWarning (computeErrWarning msg (readCachedPath s n ip)) ∧
    (((updateRenderPath s n false ip).2).knobs n).reset_path_visible = false ∧
    settingsCacheGet ((updateRenderPath s n false ip).2) n ip =
      (some { ctxId := s₁.ctx.id, width := w, height := h, output := out,
              scriptPath := s.scriptPath }, msg, "") := by
  have hpres : TmplPres (setFlag s ip true) s₁ := by
    have hp := tmplPres_gather (setFlag s ip true) n ip
    rw [hgather] at hp
    exact hp
  have hknobs₁ : ∀ m, ((setFlag s ip true).knobs m) = s.knobs m :=
    fun m => congrFun (setFlag_knobs s ip true) m
  have hdisp₂ : ip = ((settingsCacheSet s₁ n ip (some
      { ctxId := s₁.ctx.id, width := w, height := h, output := out,
        scriptPath := s.scriptPath }, msg, "")).knobs n).proxyMode := by
    show ip = (s₁.knobs n).proxyMode
    rw [hpres.proxyMode_eq n, hknobs₁ n, hdisp]
  have hfull₂ : ip = true → ((settingsCacheSet s₁ n ip (some
      { ctxId := s₁.ctx.id, width := w, height := h, output := out,
        scriptPath := s.scriptPath }, msg, "")).knobs n).cached_path ≠ "" := by
    intro hip
    show (s₁.knobs n).cached_path ≠ ""
    rw [hpres.cached_path_eq n, hknobs₁ n]
    exact hfullc hip
  obtain ⟨hok, hw1, hw2, hw3, hc, hpxy, hsc⟩ :=
    updateUI_err_proj _ n ip (computeErrWarning msg (readCachedPath s n ip))
      (readCachedPath s n ip) hdisp₂
      (computeErrWarning_ne_empty msg (readCachedPath s n ip)) hfull₂
  unfold updateRenderPath updateRenderPathCore
  dsimp only
  rw [if_neg hrender]
  simp only [hflag, Bool.false_eq_true, if_false]
  rw [setFlag_scriptPath, hgather]
  dsimp only
  rw [hcache]
  dsimp only
  rw [if_neg (by simp)]
  rw [hcompute]
  dsimp only
  rcases hu : updateUI (settingsCacheSet s₁ n ip (some
      { ctxId := s₁.ctx.id, width := w, height := h, output := out,
        scriptPath := s.scriptPath }, msg, ""))
      n ip (computeErrWarning msg (readCachedPath s n ip)) false
      (readCachedPath s n ip) with ⟨r, s₃⟩
  rw [hu] at hok hw1 hw2 hw3 hc hpxy hsc
  dsimp only at hok hw1 hw2 hw3 hc hpxy hsc
  rw [hok]
  dsimp only
  have hkf : ∀ m, ((setFlag s₃ ip false).knobs m) = s₃.knobs m :=
    fun m => congrFun (setFlag_knobs s₃ ip false) m
  refine ⟨rfl, ?_, ?_, ?_, ?_, ?_⟩
  · have hrc3 : readCachedPath (setFlag s₃ ip false) n ip = readCachedPath s₃ n ip := by
      cases ip
      · rw [readCachedPath_false, readCachedPath_false, hkf n]
      · rw [readCachedPath_true, readCachedPath_true, hkf n]
    rw [hrc3]
    cases ip
    · rw [readCachedPath_false, readCachedPath_false, hc n]
      show (s₁.knobs n).cached_path = (s.knobs n).cached_path
      rw [hpres.cached_path_eq n, hknobs₁ n]
    · rw [readCachedPath_true, readCachedPath_true, hpxy n]
      show (s₁.knobs n).tk_cached_proxy_path = (s.knobs n).tk_cached_proxy_path
      rw [hpres.tk_cached_proxy_path_eq n, hknobs₁ n]
  · rw [hkf n]
    exact hw2
  · rw [hkf n]
    exact hw1
  · rw [hkf n]
    exact hw3
  · rw [settingsCacheGet_congr n ip (setFlag_settingsCache s₃ ip false),
      settingsCacheGet_congr n ip hsc, settingsCacheGet_set_self]

/-- C1 counterexample: `render_path_is_locked` IS made true by a computation
failure.  In `sC6` the fresh computation fails (script never saved) and
`render_path_is_locked` returns `true` (its bare `except:` treats any failure
as locked), although nothing but the computation failure distinguishes the
node from the healthy `sC1y`, where the identical call chain reports not
locked. -/
theorem C1_counterexample :
    (compute_render_path sC6 0).1 =
      .error (.compute "The current script is not a Shotgun Work File!") ∧
    (renderPathIsLocked sC6 0).1 = .ok true ∧
    (compute_render_path sC1y 0).1 = .ok "/old/path.exr" ∧
    (renderPathIsLocked sC1y 0).1 = .ok false :=
  ⟨by decide, by decide, by decide, by decide⟩

theorem C1_failure_retains_cached_witness :
    (0 : Node) ∉ sC6.currentlyRendering ∧
    getFlag sC6 false = false ∧
    gatherRenderSettings (setFlag sC6 false true) 0 false =
      ((some tC6, 1920, 1080, ""), setFlag sC6 false true) ∧
    settingsCacheGet (setFlag sC6 false true) 0 false = (none, "", "") ∧
    computeRenderPathFrom (setFlag sC6 false true) (some tC6) 1920 1080 "" =
      .error (.compute "The current script is not a Shotgun Work File!") ∧
    (sC6.knobs 0).proxyMode = false ∧
    (updateRenderPath sC6 0 false false).1 = .ok (readCachedPath sC6 0 false) ∧
    readCachedPath sC6 0 false = "/old/path.exr" :=
  ⟨by decide, rfl, rfl, rfl, by decide, rfl,
    (C1_failure_retains_cached sC6 0 false "The current script is not a Shotgun Work File!"
      (some tC6) 1920 1080 "" (setFlag sC6 false true)
      (by decide) rfl rfl rfl (by decide) rfl (fun hip => nomatch hip)).1,
    rfl⟩
